import Mathlib

/-!
Verification development for the imgui-dx9-renderer crate (`src/lib.rs`).

The renderer is embedded shallowly as a deterministic interpreter over an
abstract Direct3D 9 device.  Every call the renderer makes into the device is
recorded in a trace (`DevCall`), and an oracle (`Oracle`) decides, per call,
whether the device call succeeds or fails with some HRESULT code.  The
device's captured pipeline state (the part an `IDirect3DStateBlock9` created
with `D3DSBT_ALL` captures and re-applies) is modelled concretely as
`DeviceState`; buffer lock flags live outside of it because a state block
does not capture them.

`f32` values are modelled as exact (unnormalized) rational numbers, which is
exact for the small-magnitude values the claims quantify over.
-/

namespace ImguiDx9

/-- Exact-rational model of an `f32` value, kept as an unnormalized fraction
`num / den` so that all arithmetic is plain `Int`/`Nat` computation. -/
structure F32 where
  num : Int
  den : Nat
deriving DecidableEq, Repr

instance : OfNat F32 n := ⟨⟨n, 1⟩⟩

/-- Addition of the rational models of two `f32` values. -/
def F32.add (a b : F32) : F32 := ⟨a.num * b.den + b.num * a.den, a.den * b.den⟩

/-- Subtraction of the rational models of two `f32` values. -/
def F32.sub (a b : F32) : F32 := ⟨a.num * b.den - b.num * a.den, a.den * b.den⟩

/-- Multiplication of the rational models of two `f32` values. -/
def F32.mul (a b : F32) : F32 := ⟨a.num * b.num, a.den * b.den⟩

/-- Division of the rational models of two `f32` values (sign moved into the
numerator so the denominator stays a `Nat`). -/
def F32.div (a b : F32) : F32 :=
  if b.num < 0 then ⟨-(a.num * Int.ofNat b.den), a.den * b.num.natAbs⟩
  else ⟨a.num * Int.ofNat b.den, a.den * b.num.natAbs⟩

instance : Add F32 := ⟨F32.add⟩
instance : Sub F32 := ⟨F32.sub⟩
instance : Mul F32 := ⟨F32.mul⟩
instance : Div F32 := ⟨F32.div⟩
instance : Neg F32 := ⟨fun a => ⟨-a.num, a.den⟩⟩

/-- Model of the Rust comparison `x < 0.0` on an `f32`. -/
def F32.isNeg (a : F32) : Bool := a.num < 0

/-- Model of the Rust cast `x as i32` on an `f32`: truncation toward zero. -/
def F32.toI32 (a : F32) : Int := a.num.tdiv a.den

/-- Model of the Rust cast `x as u32` on a non-negative `f32`: truncation
toward zero, saturating at 0 for negative inputs. -/
def F32.toU32 (a : F32) : Nat := (a.num.tdiv a.den).toNat

/-- The `f32` constant `0.5` used by the projection-matrix computation. -/
def half : F32 := ⟨1, 2⟩

/-! ## Constants of the source (`lib.rs` lines 22-29) and of the D3D9 API -/

/-- `const FONT_TEX_ID: usize = !0;` — the reserved font-texture identifier,
`usize::MAX` on a 64-bit target. -/
def FONT_TEX_ID : Nat := 2 ^ 64 - 1

/-- `const VERTEX_BUF_ADD_CAPACITY: usize = 5000;` -/
def VERTEX_BUF_ADD_CAPACITY : Nat := 5000

/-- `const INDEX_BUF_ADD_CAPACITY: usize = 10000;` -/
def INDEX_BUF_ADD_CAPACITY : Nat := 10000

/-- The error code `DXGI_ERROR_INVALID_CALL` (0x887A0001) returned for an
invalid texture reference. -/
def DXGI_ERROR_INVALID_CALL : Nat := 0x887A0001

/-- `const FALSE: u32 = 0;` from the source. -/
def FALSE_V : Nat := 0

/-- `const TRUE: u32 = 1;` from the source. -/
def TRUE_V : Nat := 1

/-- D3D9 render-state, stage-state, sampler-state and transform-state
identifiers and values, with their numeric values from `d3d9types.h`. -/
def D3DRS_ZENABLE : Nat := 7
/-- See `d3d9types.h`. -/
def D3DRS_FILLMODE : Nat := 8
/-- See `d3d9types.h`. -/
def D3DRS_SHADEMODE : Nat := 9
/-- See `d3d9types.h`. -/
def D3DRS_ZWRITEENABLE : Nat := 14
/-- See `d3d9types.h`. -/
def D3DRS_ALPHATESTENABLE : Nat := 15
/-- See `d3d9types.h`. -/
def D3DRS_SRCBLEND : Nat := 19
/-- See `d3d9types.h`. -/
def D3DRS_DESTBLEND : Nat := 20
/-- See `d3d9types.h`. -/
def D3DRS_CULLMODE : Nat := 22
/-- See `d3d9types.h`. -/
def D3DRS_ALPHABLENDENABLE : Nat := 27
/-- See `d3d9types.h`. -/
def D3DRS_FOGENABLE : Nat := 28
/-- See `d3d9types.h`. -/
def D3DRS_SPECULARENABLE : Nat := 29
/-- See `d3d9types.h`. -/
def D3DRS_RANGEFOGENABLE : Nat := 48
/-- See `d3d9types.h`. -/
def D3DRS_STENCILENABLE : Nat := 52
/-- See `d3d9types.h`. -/
def D3DRS_CLIPPING : Nat := 136
/-- See `d3d9types.h`. -/
def D3DRS_LIGHTING : Nat := 137
/-- See `d3d9types.h`. -/
def D3DRS_BLENDOP : Nat := 171
/-- See `d3d9types.h`. -/
def D3DRS_SCISSORTESTENABLE : Nat := 174
/-- See `d3d9types.h`. -/
def D3DRS_SEPARATEALPHABLENDENABLE : Nat := 206
/-- See `d3d9types.h`. -/
def D3DRS_SRCBLENDALPHA : Nat := 207
/-- See `d3d9types.h`. -/
def D3DRS_DESTBLENDALPHA : Nat := 208
/-- See `d3d9types.h`. -/
def D3DFILL_SOLID : Nat := 3
/-- See `d3d9types.h`. -/
def D3DSHADE_GOURAUD : Nat := 2
/-- See `d3d9types.h`. -/
def D3DCULL_NONE : Nat := 1
/-- See `d3d9types.h`. -/
def D3DBLENDOP_ADD : Nat := 1
/-- See `d3d9types.h`. -/
def D3DBLEND_ONE : Nat := 2
/-- See `d3d9types.h`. -/
def D3DBLEND_SRCALPHA : Nat := 5
/-- See `d3d9types.h`. -/
def D3DBLEND_INVSRCALPHA : Nat := 6
/-- See `d3d9types.h`. -/
def D3DTSS_COLOROP : Nat := 1
/-- See `d3d9types.h`. -/
def D3DTSS_COLORARG1 : Nat := 2
/-- See `d3d9types.h`. -/
def D3DTSS_COLORARG2 : Nat := 3
/-- See `d3d9types.h`. -/
def D3DTSS_ALPHAOP : Nat := 4
/-- See `d3d9types.h`. -/
def D3DTSS_ALPHAARG1 : Nat := 5
/-- See `d3d9types.h`. -/
def D3DTSS_ALPHAARG2 : Nat := 6
/-- See `d3d9types.h`. -/
def D3DTA_DIFFUSE : Nat := 0
/-- See `d3d9types.h`. -/
def D3DTA_TEXTURE : Nat := 2
/-- See `d3d9types.h`. -/
def D3DTOP_DISABLE : Nat := 1
/-- See `d3d9types.h`. -/
def D3DTOP_MODULATE : Nat := 4
/-- See `d3d9types.h`. -/
def D3DSAMP_MAGFILTER : Nat := 5
/-- See `d3d9types.h`. -/
def D3DSAMP_MINFILTER : Nat := 6
/-- See `d3d9types.h`. -/
def D3DTEXF_LINEAR : Nat := 2
/-- See `d3d9types.h`. -/
def D3DTS_VIEW : Nat := 2
/-- See `d3d9types.h`. -/
def D3DTS_PROJECTION : Nat := 3
/-- The D3D9 world-transform state: `d3d9types.h` defines
`D3DTS_WORLD = D3DTS_WORLDMATRIX(0) = 0 + 256`. -/
def D3DTS_WORLD : Nat := 256
/-- See `d3d9types.h`. -/
def D3DPT_TRIANGLELIST : Nat := 4
/-- `D3DFVF_XYZ | D3DFVF_DIFFUSE | D3DFVF_TEX1 = 0x002 | 0x040 | 0x100`. -/
def D3DFVF_CUSTOMVERTEX : Nat := 0x142
/-- Byte size of `CustomVertex`: 3 floats + 4 bytes + 2 floats. -/
def CUSTOMVERTEX_SIZE : Nat := 24

/-! ## Data model -/

/-- A 4x4 matrix of `f32` values, mirroring `windows_numerics::Matrix4x4`. -/
structure Mat4 where
  M11 : F32
  M12 : F32
  M13 : F32
  M14 : F32
  M21 : F32
  M22 : F32
  M23 : F32
  M24 : F32
  M31 : F32
  M32 : F32
  M33 : F32
  M34 : F32
  M41 : F32
  M42 : F32
  M43 : F32
  M44 : F32
deriving DecidableEq, Repr

/-- `const MAT_IDENTITY: Matrix4x4` from the source (lines 34-51). -/
def MAT_IDENTITY : Mat4 :=
  { M11 := 1, M12 := 0, M13 := 0, M14 := 0
    M21 := 0, M22 := 1, M23 := 0, M24 := 0
    M31 := 0, M32 := 0, M33 := 1, M34 := 0
    M41 := 0, M42 := 0, M43 := 0, M44 := 1 }

/-- A device texture: either the renderer-owned font texture or a
caller-owned texture handle from the registry. -/
inductive Tex
  | font
  | user (handle : Nat)
deriving DecidableEq, Repr

/-- A Win32 `RECT`, as passed to `SetScissorRect`. -/
structure Rect where
  left : Int
  top : Int
  right : Int
  bottom : Int
deriving DecidableEq, Repr

/-- A `D3DVIEWPORT9` value. -/
structure Viewport where
  x : Nat
  y : Nat
  width : Nat
  height : Nat
  minZ : F32
  maxZ : F32
deriving DecidableEq, Repr

/-- Insert-or-replace in an association list (the model of a keyed device
state slot). -/
def setA {α β : Type} [DecidableEq α] (k : α) (v : β) : List (α × β) → List (α × β)
  | [] => [(k, v)]
  | (k', v') :: rest => if k = k' then (k, v) :: rest else (k', v') :: setA k v rest

/-- Lookup in an association list. -/
def getA {α β : Type} [DecidableEq α] (k : α) : List (α × β) → Option β
  | [] => none
  | (k', v) :: rest => if k = k' then some v else getA k rest

/-- The mutable device pipeline state captured by a `D3DSBT_ALL` state block
and re-applied by `IDirect3DStateBlock9::Apply`.  Fields whose initial
(caller-owned) value the renderer never learns are `Option`/lists so an
arbitrary caller state can be represented. -/
structure DeviceState where
  renderStates : List (Nat × Nat)
  stageStates : List ((Nat × Nat) × Nat)
  samplerStates : List ((Nat × Nat) × Nat)
  transforms : List (Nat × Mat4)
  viewport : Option Viewport
  pixelShader : Option Nat
  vertexShader : Option Nat
  scissorRect : Option Rect
  texture0 : Option Tex
  streamStride : Option Nat
  indicesBound : Bool
  fvf : Option Nat
deriving DecidableEq, Repr

/-- One call made by the renderer into the `IDirect3DDevice9` (or into one of
its buffers / state blocks).  Buffer creation calls carry the element count
of the new buffer; lock calls carry the locked element count. -/
inductive DevCall
  | createVertexBuffer (len : Nat)
  | createIndexBuffer (len : Nat)
  | createStateBlock
  | setViewport (vp : Viewport)
  | setPixelShader
  | setVertexShader
  | setRenderState (ty v : Nat)
  | setTextureStageState (stage ty v : Nat)
  | setSamplerState (stage ty v : Nat)
  | setTransform (ty : Nat) (m : Mat4)
  | vbLock (count : Nat)
  | ibLock (count : Nat)
  | vbUnlock
  | ibUnlock
  | setStreamSource (stride : Nat)
  | setIndices
  | setFVF (fvf : Nat)
  | setTexture (t : Tex)
  | setScissorRect (r : Rect)
  | drawIndexedPrimitive (primType : Nat) (baseVertex : Nat) (minIndex : Nat)
      (numVertices : Nat) (startIndex : Nat) (primCount : Nat)
  | applyStateBlock
deriving DecidableEq, Repr

/-- Effect of a successful device call on the captured pipeline state.
`applyStateBlock`'s restore effect is applied at its call site (it needs the
snapshot); buffer creation, locks and draws do not change captured state. -/
def stepDev (c : DevCall) (d : DeviceState) : DeviceState :=
  match c with
  | .setViewport vp => { d with viewport := some vp }
  | .setPixelShader => { d with pixelShader := none }
  | .setVertexShader => { d with vertexShader := none }
  | .setRenderState ty v => { d with renderStates := setA ty v d.renderStates }
  | .setTextureStageState st ty v => { d with stageStates := setA (st, ty) v d.stageStates }
  | .setSamplerState st ty v => { d with samplerStates := setA (st, ty) v d.samplerStates }
  | .setTransform ty m => { d with transforms := setA ty m d.transforms }
  | .setStreamSource stride => { d with streamStride := some stride }
  | .setIndices => { d with indicesBound := true }
  | .setFVF f => { d with fvf := some f }
  | .setTexture t => { d with texture0 := some t }
  | .setScissorRect r => { d with scissorRect := some r }
  | _ => d

/-- Effect of a successful device call on the two buffer-lock flags. -/
def stepLocks (c : DevCall) (vb ib : Bool) : Bool × Bool :=
  match c with
  | .vbLock _ => (true, ib)
  | .ibLock _ => (vb, true)
  | .vbUnlock => (false, ib)
  | .ibUnlock => (vb, false)
  | _ => (vb, ib)

/-- Failure oracle: for the `n`-th device call of a run, `none` means the
call succeeds and `some e` means it fails with HRESULT code `e`. -/
def Oracle : Type := Nat → Option Nat

/-- The oracle under which every device call succeeds. -/
def allOk : Oracle := fun _ => none

/-- Interpreter state threaded through a `render` call: the device-call
counter and trace, the captured device state, the buffer lock flags, and the
renderer's buffer capacities (`vertex_buffer.1` / `index_buffer.1` in the
source) together with generation counters that model buffer identity (a
generation bumps exactly when the old buffer is dropped for a new one). -/
structure St where
  oracleIdx : Nat
  trace : List DevCall
  dev : DeviceState
  vbLocked : Bool
  ibLocked : Bool
  vbCap : Nat
  ibCap : Nat
  vbGen : Nat
  ibGen : Nat
deriving DecidableEq, Repr

/-- Issue one device call: record it in the trace, consult the oracle, and on
success apply its state effect.  A failed call leaves device state and lock
flags unchanged. -/
def callDev (o : Oracle) (c : DevCall) (s : St) : Option Nat × St :=
  let s1 : St := { s with trace := s.trace ++ [c], oracleIdx := s.oracleIdx + 1 }
  match o s.oracleIdx with
  | some e => (some e, s1)
  | none =>
    (none, { s1 with dev := stepDev c s1.dev,
                     vbLocked := (stepLocks c s1.vbLocked s1.ibLocked).1,
                     ibLocked := (stepLocks c s1.vbLocked s1.ibLocked).2 })

/-- Run a straight-line sequence of device calls, each followed by `?` in the
source: stop at the first failure. -/
def runCalls (o : Oracle) : List DevCall → St → Option Nat × St
  | [], s => (none, s)
  | c :: cs, s =>
    match callDev o c s with
    | (some e, s1) => (some e, s1)
    | (none, s1) => runCalls o cs s1

/-! ## Draw data (the imgui collaborator's input to `render`) -/

/-- Four color bytes in source channel order `(c0, c1, c2, c3)`. -/
structure Col4 where
  c0 : Nat
  c1 : Nat
  c2 : Nat
  c3 : Nat
deriving DecidableEq, Repr

/-- An imgui source vertex: 2D position, four color bytes, UV. -/
structure DrawVert where
  pos : F32 × F32
  col : Col4
  uv : F32 × F32
deriving DecidableEq, Repr

/-- The device vertex format (`struct CustomVertex`, lines 53-58): 3D
position, four color bytes, UV. -/
structure CustomVertex where
  pos : F32 × F32 × F32
  col : Col4
  uv : F32 × F32
deriving DecidableEq, Repr

/-- The per-vertex conversion performed by `write_buffers` (lines 322-328):
z fixed at 0, color channels reordered `[col[2], col[1], col[0], col[3]]`,
UV copied. -/
def customVertexOf (v : DrawVert) : CustomVertex :=
  { pos := (v.pos.1, v.pos.2, 0)
    col := ⟨v.col.c2, v.col.c1, v.col.c0, v.col.c3⟩
    uv := (v.uv.1, v.uv.2) }

/-- A clip rectangle `[x1, y1, x2, y2]` of an Elements command. -/
structure ClipRect where
  x1 : F32
  y1 : F32
  x2 : F32
  y2 : F32
deriving DecidableEq, Repr

/-- The `DrawCmdParams` fields the renderer reads (`clip_rect` and
`texture_id`; the remaining fields are ignored by the source via `..`). -/
structure DrawCmdParams where
  clipRect : ClipRect
  textureId : Nat
deriving DecidableEq, Repr

/-- One imgui draw command.  The raw-callback variant carries an opaque
caller function which may mutate arbitrary device state (it receives the
draw list and raw command in the source and is trusted with the device). -/
inductive DrawCmd
  | elements (count : Nat) (cmdParams : DrawCmdParams)
  | resetRenderState
  | rawCallback (f : DeviceState → DeviceState)

/-- One imgui draw list: vertices, indices, commands. -/
structure DrawList where
  vtxBuffer : List DrawVert
  idxBuffer : List Nat
  commands : List DrawCmd

/-- The per-frame draw data.  `totalVtxCount`/`totalIdxCount` are the fields
imgui maintains and the source reads for buffer sizing. -/
structure DrawData where
  displaySize : F32 × F32
  displayPos : F32 × F32
  framebufferScale : F32 × F32
  totalVtxCount : Nat
  totalIdxCount : Nat
  drawLists : List DrawList

/-! ## set_render_state (lines 201-276) -/

/-- The orthographic projection matrix computed by `set_render_state`
(lines 249-270). -/
def matProjection (dd : DrawData) : Mat4 :=
  let l := dd.displayPos.1 + half
  let r := dd.displayPos.1 + dd.displaySize.1 + half
  let t := dd.displayPos.2 + half
  let b := dd.displayPos.2 + dd.displaySize.2 + half
  { M11 := (2 : F32) / (r - l), M12 := 0, M13 := 0, M14 := 0
    M21 := 0, M22 := (2 : F32) / (t - b), M23 := 0, M24 := 0
    M31 := 0, M32 := 0, M33 := half, M34 := 0
    M41 := (l + r) / (l - r), M42 := (t + b) / (b - t), M43 := half, M44 := 1 }

/-- The viewport set by `set_render_state` (lines 205-212): framebuffer-sized,
`f32` products cast with `as _`. -/
def viewportOf (dd : DrawData) : Viewport :=
  { x := 0, y := 0
    width := (dd.displaySize.1 * dd.framebufferScale.1).toU32
    height := (dd.displaySize.2 * dd.framebufferScale.2).toU32
    minZ := 0, maxZ := 1 }

/-- The exact sequence of device calls issued by `set_render_state`
(lines 215-274), in source order. -/
def setRenderStateCalls (dd : DrawData) : List DevCall :=
  [ .setViewport (viewportOf dd),
    .setPixelShader,
    .setVertexShader,
    .setRenderState D3DRS_FILLMODE D3DFILL_SOLID,
    .setRenderState D3DRS_SHADEMODE D3DSHADE_GOURAUD,
    .setRenderState D3DRS_ZWRITEENABLE FALSE_V,
    .setRenderState D3DRS_ALPHATESTENABLE FALSE_V,
    .setRenderState D3DRS_CULLMODE D3DCULL_NONE,
    .setRenderState D3DRS_ZENABLE FALSE_V,
    .setRenderState D3DRS_ALPHABLENDENABLE TRUE_V,
    .setRenderState D3DRS_BLENDOP D3DBLENDOP_ADD,
    .setRenderState D3DRS_SRCBLEND D3DBLEND_SRCALPHA,
    .setRenderState D3DRS_DESTBLEND D3DBLEND_INVSRCALPHA,
    .setRenderState D3DRS_SEPARATEALPHABLENDENABLE TRUE_V,
    .setRenderState D3DRS_SRCBLENDALPHA D3DBLEND_ONE,
    .setRenderState D3DRS_DESTBLENDALPHA D3DBLEND_INVSRCALPHA,
    .setRenderState D3DRS_SCISSORTESTENABLE TRUE_V,
    .setRenderState D3DRS_FOGENABLE FALSE_V,
    .setRenderState D3DRS_RANGEFOGENABLE FALSE_V,
    .setRenderState D3DRS_SPECULARENABLE FALSE_V,
    .setRenderState D3DRS_STENCILENABLE FALSE_V,
    .setRenderState D3DRS_CLIPPING TRUE_V,
    .setRenderState D3DRS_LIGHTING FALSE_V,
    .setTextureStageState 0 D3DTSS_COLOROP D3DTOP_MODULATE,
    .setTextureStageState 0 D3DTSS_COLORARG1 D3DTA_TEXTURE,
    .setTextureStageState 0 D3DTSS_COLORARG2 D3DTA_DIFFUSE,
    .setTextureStageState 0 D3DTSS_ALPHAOP D3DTOP_MODULATE,
    .setTextureStageState 0 D3DTSS_ALPHAARG1 D3DTA_TEXTURE,
    .setTextureStageState 0 D3DTSS_ALPHAARG2 D3DTA_DIFFUSE,
    .setTextureStageState 1 D3DTSS_COLOROP D3DTOP_DISABLE,
    .setTextureStageState 1 D3DTSS_ALPHAOP D3DTOP_DISABLE,
    .setSamplerState 0 D3DSAMP_MINFILTER D3DTEXF_LINEAR,
    .setSamplerState 0 D3DSAMP_MAGFILTER D3DTEXF_LINEAR,
    .setTransform 0 MAT_IDENTITY,
    .setTransform D3DTS_VIEW MAT_IDENTITY,
    .setTransform D3DTS_PROJECTION (matProjection dd) ]

/-- `Renderer::set_render_state`: issue the pipeline-state calls in order,
propagating the first device error. -/
def setRenderState (o : Oracle) (dd : DrawData) (s : St) : Option Nat × St :=
  runCalls o (setRenderStateCalls dd) s

/-! ## lock_buffers / write_buffers (lines 278-344) -/

/-- `Renderer::lock_buffers` (lines 278-309): lock the vertex buffer, then
the index buffer; if the index-buffer lock fails, unlock the vertex buffer
before returning the error (and return the unlock's own error if the unlock
fails, via the `?` on `vb.Unlock()`). -/
def lockBuffers (o : Oracle) (vtxCount idxCount : Nat) (s : St) : Option Nat × St :=
  match callDev o (.vbLock vtxCount) s with
  | (some e, s1) => (some e, s1)
  | (none, s1) =>
    match callDev o (.ibLock idxCount) s1 with
    | (none, s2) => (none, s2)
    | (some e, s2) =>
      match callDev o .vbUnlock s2 with
      | (some e2, s3) => (some e2, s3)
      | (none, s3) => (some e, s3)

/-- The vertex data written into the locked vertex slice of length `room`
(lines 319-332): per list, each source vertex is converted by
`customVertexOf` and the destination slice is advanced by the list's length;
`none` models the Rust slice-bounds panic when a list does not fit. -/
def writeVerts : Nat → List DrawList → Option (List CustomVertex)
  | _, [] => some []
  | room, dl :: rest =>
    if dl.vtxBuffer.length ≤ room then
      (writeVerts (room - dl.vtxBuffer.length) rest).map (dl.vtxBuffer.map customVertexOf ++ ·)
    else none

/-- The index data written into the locked index slice of length `room`:
indices are copied verbatim per list; `none` models the slice-bounds panic. -/
def writeIdxs : Nat → List DrawList → Option (List Nat)
  | _, [] => some []
  | room, dl :: rest =>
    if dl.idxBuffer.length ≤ room then
      (writeIdxs (room - dl.idxBuffer.length) rest).map (dl.idxBuffer ++ ·)
    else none

/-- Where a Rust panic in the model originated. -/
inductive PanicSrc
  | call (c : DevCall)
  | copyOob
deriving DecidableEq, Repr

/-- The result of a `render` call: a normal return (`ok` or `err`), or a
panic (`.unwrap()` / `.expect()` on a failed device call, or a slice-bounds
violation while copying draw data). -/
inductive Outcome
  | ok
  | err (code : Nat)
  | panicked (src : PanicSrc)
deriving DecidableEq, Repr

/-- The unlock-and-bind tail of `write_buffers` (lines 333-342): unlock both
buffers, then bind stream source, indices and FVF. -/
def unlockAndBind (o : Oracle) (s1 : St) : Outcome × St :=
  match callDev o .vbUnlock s1 with
  | (some e, s2) => (.err e, s2)
  | (none, s2) =>
    match callDev o .ibUnlock s2 with
    | (some e, s3) => (.err e, s3)
    | (none, s3) =>
      match callDev o (.setStreamSource CUSTOMVERTEX_SIZE) s3 with
      | (some e, s4) => (.err e, s4)
      | (none, s4) =>
        match callDev o .setIndices s4 with
        | (some e, s5) => (.err e, s5)
        | (none, s5) =>
          match callDev o (.setFVF D3DFVF_CUSTOMVERTEX) s5 with
          | (some e, s6) => (.err e, s6)
          | (none, s6) => (.ok, s6)

/-- `Renderer::write_buffers` (lines 311-344): lock both buffers, copy the
converted vertex data and the verbatim index data (panicking if a list does
not fit the locked slices), unlock, then bind stream source, indices and
FVF. -/
def writeBuffers (o : Oracle) (dd : DrawData) (s : St) : Outcome × St :=
  match lockBuffers o dd.totalVtxCount dd.totalIdxCount s with
  | (some e, s1) => (.err e, s1)
  | (none, s1) =>
    match writeVerts dd.totalVtxCount dd.drawLists with
    | none => (.panicked .copyOob, s1)
    | some _ =>
      match writeIdxs dd.totalIdxCount dd.drawLists with
      | none => (.panicked .copyOob, s1)
      | some _ => unlockAndBind o s1

/-! ## render_impl (lines 149-199) -/

/-- One record per completed `DrawIndexedPrimitive` call of the draw loop:
the command's texture id, the texture bound on stage 0 at the moment of the
draw, the scissor rectangle set for it, and the draw-call arguments. -/
structure DrawRec where
  texId : Nat
  bound : Option Tex
  rect : Rect
  baseVertex : Nat
  numVertices : Nat
  startIndex : Nat
  primCount : Nat
deriving DecidableEq, Repr

/-- The scissor rectangle computed for an Elements command (lines 173-178):
subtract the display offset, multiply by the framebuffer scale, cast each
coordinate with `as i32`. -/
def scissorOf (clipOff clipScale : F32 × F32) (clip : ClipRect) : Rect :=
  { left := ((clip.x1 - clipOff.1) * clipScale.1).toI32
    top := ((clip.y1 - clipOff.2) * clipScale.2).toI32
    right := ((clip.x2 - clipOff.1) * clipScale.1).toI32
    bottom := ((clip.y2 - clipOff.2) * clipScale.2).toI32 }

/-- Loop state of `render_impl`: the interpreter state plus the running
vertex/index offsets, the last bound texture id, and the draw log. -/
structure LoopSt where
  st : St
  vertexOffset : Nat
  indexOffset : Nat
  lastTex : Nat
  log : List DrawRec

/-- The texture-rebinding prefix of an Elements command (lines 163-171): if
the command's id differs from the last bound id, resolve it — the reserved
font id maps to the font texture, any other id is looked up in the registry
and a miss is `DXGI_ERROR_INVALID_CALL` — and bind it. -/
def bindTexture (o : Oracle) (textures : List (Nat × Nat)) (p : DrawCmdParams)
    (ls : LoopSt) : Option Nat × LoopSt :=
  if p.textureId = ls.lastTex then (none, ls)
  else
    match (if p.textureId = FONT_TEX_ID then some Tex.font
           else (getA p.textureId textures).map Tex.user) with
    | none => (some DXGI_ERROR_INVALID_CALL, ls)
    | some t =>
      match callDev o (.setTexture t) ls.st with
      | (some e, s1) => (some e, { ls with st := s1 })
      | (none, s1) => (none, { ls with st := s1, lastTex := p.textureId })

/-- Processing of one `DrawCmd::Elements` command (lines 159-189): rebind the
texture if needed, set the scissor rectangle, issue the indexed draw, then
advance the index offset by `count`. -/
def elementsStep (o : Oracle) (dd : DrawData) (textures : List (Nat × Nat))
    (dl : DrawList) (count : Nat) (p : DrawCmdParams) (ls : LoopSt) : Option Nat × LoopSt :=
  match bindTexture o textures p ls with
  | (some e, ls1) => (some e, ls1)
  | (none, ls1) =>
    match callDev o (.setScissorRect (scissorOf dd.displayPos dd.framebufferScale p.clipRect))
        ls1.st with
    | (some e, s1) => (some e, { ls1 with st := s1 })
    | (none, s1) =>
      match callDev o (.drawIndexedPrimitive D3DPT_TRIANGLELIST ls1.vertexOffset 0
          dl.vtxBuffer.length ls1.indexOffset (count / 3)) s1 with
      | (some e, s2) => (some e, { ls1 with st := s2 })
      | (none, s2) =>
        (none, { ls1 with
                 st := s2
                 log := ls1.log ++ [⟨p.textureId, s2.dev.texture0,
                                     scissorOf dd.displayPos dd.framebufferScale p.clipRect,
                                     ls1.vertexOffset, dl.vtxBuffer.length, ls1.indexOffset,
                                     count / 3⟩]
                 indexOffset := ls1.indexOffset + count })

/-- The inner command loop of `render_impl` (lines 157-195). -/
def runCmds (o : Oracle) (dd : DrawData) (textures : List (Nat × Nat)) (dl : DrawList) :
    List DrawCmd → LoopSt → Option Nat × LoopSt
  | [], ls => (none, ls)
  | .elements count p :: rest, ls =>
    match elementsStep o dd textures dl count p ls with
    | (some e, ls1) => (some e, ls1)
    | (none, ls1) => runCmds o dd textures dl rest ls1
  | .resetRenderState :: rest, ls =>
    match runCalls o (setRenderStateCalls dd) ls.st with
    | (some e, s1) => (some e, { ls with st := s1 })
    | (none, s1) => runCmds o dd textures dl rest { ls with st := s1 }
  | .rawCallback f :: rest, ls =>
    runCmds o dd textures dl rest { ls with st := { ls.st with dev := f ls.st.dev } }

/-- The outer draw-list loop of `render_impl` (lines 156-197): after a list's
commands, the vertex offset advances by that list's vertex count. -/
def runLists (o : Oracle) (dd : DrawData) (textures : List (Nat × Nat)) :
    List DrawList → LoopSt → Option Nat × LoopSt
  | [], ls => (none, ls)
  | dl :: rest, ls =>
    match runCmds o dd textures dl dl.commands ls with
    | (some e, ls1) => (some e, ls1)
    | (none, ls1) =>
      runLists o dd textures rest
        { ls1 with vertexOffset := ls1.vertexOffset + dl.vtxBuffer.length }

/-- `Renderer::render_impl` (lines 149-199): bind the font texture first —
with `.unwrap()`, so a failure of this one call panics — then run the draw
loop with `last_tex` initialized to the font id. -/
def renderImpl (o : Oracle) (dd : DrawData) (textures : List (Nat × Nat)) (s : St) :
    Outcome × St × List DrawRec :=
  match callDev o (.setTexture .font) s with
  | (some _, s1) => (.panicked (.call (.setTexture .font)), s1, [])
  | (none, s1) =>
    match runLists o dd textures dd.drawLists ⟨s1, 0, 0, FONT_TEX_ID, []⟩ with
    | (some e, ls) => (.err e, ls.st, ls.log)
    | (none, ls) => (.ok, ls.st, ls.log)

/-! ## Buffer creation and render (lines 127-147, 346-379) -/

/-- `Renderer::create_vertex_buffer` (lines 346-361): the new capacity is the
requested count plus the fixed margin; the renderer's buffer (capacity and
generation) is replaced only if the device call succeeds. -/
def createVertexBuffer (o : Oracle) (vtxCount : Nat) (s : St) : Option Nat × St :=
  match callDev o (.createVertexBuffer (vtxCount + VERTEX_BUF_ADD_CAPACITY)) s with
  | (some e, s1) => (some e, s1)
  | (none, s1) =>
    (none, { s1 with vbCap := vtxCount + VERTEX_BUF_ADD_CAPACITY, vbGen := s1.vbGen + 1 })

/-- `Renderer::create_index_buffer` (lines 363-379). -/
def createIndexBuffer (o : Oracle) (idxCount : Nat) (s : St) : Option Nat × St :=
  match callDev o (.createIndexBuffer (idxCount + INDEX_BUF_ADD_CAPACITY)) s with
  | (some e, s1) => (some e, s1)
  | (none, s1) =>
    (none, { s1 with ibCap := idxCount + INDEX_BUF_ADD_CAPACITY, ibGen := s1.ibGen + 1 })

/-- The buffer-sizing step of `render` (lines 132-139): grow the vertex and
then the index buffer when the frame's totals exceed the current capacities,
propagating the first failure (the `?` on each create leaves the old buffer
in place on failure). -/
def growBuffers (o : Oracle) (dd : DrawData) (s : St) : Option Nat × St :=
  match (if s.vbCap < dd.totalVtxCount then createVertexBuffer o dd.totalVtxCount s
         else (none, s)) with
  | (some e, s1) => (some e, s1)
  | (none, s1) =>
    if s1.ibCap < dd.totalIdxCount then createIndexBuffer o dd.totalIdxCount s1
    else (none, s1)

/-- The body of `render` guarded by the `StateBackup` (lines 143-145):
`set_render_state`, `write_buffers`, `render_impl` in sequence. -/
def renderBody (o : Oracle) (dd : DrawData) (textures : List (Nat × Nat)) (s : St) :
    Outcome × St × List DrawRec :=
  match setRenderState o dd s with
  | (some e, s1) => (.err e, s1, [])
  | (none, s1) =>
    match writeBuffers o dd s1 with
    | (.ok, s2) => renderImpl o dd textures s2
    | (out, s2) => (out, s2, [])

/-- `Renderer::render` (lines 127-147): the negative-display-size no-op, the
buffer-sizing step, the `CreateStateBlock` snapshot, the guarded body, and
the `StateBackup` drop which re-applies the snapshot on every exit path —
with `.expect(...)`, so a failing `Apply` panics.  Returns the outcome, the
final interpreter state, and the draw log. -/
def render (o : Oracle) (dd : DrawData) (textures : List (Nat × Nat)) (s0 : St) :
    Outcome × St × List DrawRec :=
  if dd.displaySize.1.isNeg || dd.displaySize.2.isNeg then (.ok, s0, [])
  else
    match growBuffers o dd s0 with
    | (some e, s1) => (.err e, s1, [])
    | (none, s1) =>
      match callDev o .createStateBlock s1 with
      | (some e, s2) => (.err e, s2, [])
      | (none, s2) =>
        let snap := s2.dev
        match renderBody o dd textures s2 with
        | (out, s3, log) =>
          match callDev o .applyStateBlock s3 with
          | (none, s4) => (out, { s4 with dev := snap }, log)
          | (some _, s4) =>
            match out with
            | .panicked src => (.panicked src, s4, log)
            | _ => (.panicked (.call .applyStateBlock), s4, log)

/-! ## Spec-side definitions (for refinement comparisons) -/

/-- Modelled from the spec (§4.2 step 5): the scissor rectangle is computed
"by subtracting the display offset from the clip rectangle and multiplying by
the framebuffer scale"; left/right use the x offset and x scale, top/bottom
the y offset and y scale, each coordinate truncated to an integer. -/
def specScissor (off scale : F32 × F32) (clip : ClipRect) : Rect :=
  { left := ((clip.x1 - off.1) * scale.1).toI32
    top := ((clip.y1 - off.2) * scale.2).toI32
    right := ((clip.x2 - off.1) * scale.1).toI32
    bottom := ((clip.y2 - off.2) * scale.2).toI32 }

/-- The oracle-independent part of a draw record: everything but the bound
texture. -/
structure SpecRec where
  texId : Nat
  rect : Rect
  baseVertex : Nat
  numVertices : Nat
  startIndex : Nat
  primCount : Nat
deriving DecidableEq, Repr

/-- Forget the bound texture of a draw record. -/
def stripRec (r : DrawRec) : SpecRec :=
  ⟨r.texId, r.rect, r.baseVertex, r.numVertices, r.startIndex, r.primCount⟩

/-- Modelled from the spec (§4.2 step 5), command walk of one draw list:
commands in order; an Elements command whose id is the font id or a registry
key yields one draw record at the current base-vertex/index offsets with
`count/3` primitives and advances the index offset by `count`; any other id
aborts the frame with the invalid-reference error; the other command kinds
draw nothing. -/
def specCmds (textures : List (Nat × Nat)) (off scale : F32 × F32) (nv : Nat) :
    List DrawCmd → Nat → Nat → List SpecRec × Nat × Option Nat
  | [], _, idx => ([], idx, none)
  | .elements count p :: rest, bv, idx =>
    if p.textureId = FONT_TEX_ID ∨ (getA p.textureId textures).isSome then
      match specCmds textures off scale nv rest bv (idx + count) with
      | (rs, idx', e) =>
        (⟨p.textureId, specScissor off scale p.clipRect, bv, nv, idx, count / 3⟩ :: rs, idx', e)
    else ([], idx, some DXGI_ERROR_INVALID_CALL)
  | _ :: rest, bv, idx => specCmds textures off scale nv rest bv idx

/-- Modelled from the spec (§4.2 step 5), draw-list walk: lists in order, the
index offset accumulating across the whole frame (never reset per list), the
vertex offset advancing by each list's vertex count after that list. -/
def specLists (textures : List (Nat × Nat)) (off scale : F32 × F32) :
    List DrawList → Nat → Nat → List SpecRec × Option Nat
  | [], _, _ => ([], none)
  | dl :: rest, v0, idx0 =>
    match specCmds textures off scale dl.vtxBuffer.length dl.commands v0 idx0 with
    | (rs, _, some e) => (rs, some e)
    | (rs, idx', none) =>
      match specLists textures off scale rest (v0 + dl.vtxBuffer.length) idx' with
      | (rs2, e) => (rs ++ rs2, e)

/-- The draw records the spec's draw loop predicts for a frame, together with
the error aborting the frame, if any. -/
def specRun (textures : List (Nat × Nat)) (dd : DrawData) : List SpecRec × Option Nat :=
  specLists textures dd.displayPos dd.framebufferScale dd.drawLists 0 0

/-- Whether a command is a raw callback. -/
def DrawCmd.isRawCallback : DrawCmd → Bool
  | .rawCallback _ => true
  | _ => false

/-- Whether a frame contains no raw-callback command. -/
def noRawCallback (dd : DrawData) : Bool :=
  dd.drawLists.all fun dl => dl.commands.all fun c => !c.isRawCallback

/-- Modelled from the spec (§6 projection-matrix formula): with l=x0+0.5,
r=x0+w+0.5, t=y0+0.5, b=y0+h+0.5, the projection is
diag(2/(r-l), 2/(t-b), 0.5, 1) with translation row
((l+r)/(l-r), (t+b)/(b-t), 0.5) and all other entries zero. -/
def matProjectionSpec (dd : DrawData) : Mat4 :=
  let l := dd.displayPos.1 + half
  let r := dd.displayPos.1 + dd.displaySize.1 + half
  let t := dd.displayPos.2 + half
  let b := dd.displayPos.2 + dd.displaySize.2 + half
  { M11 := (2 : F32) / (r - l), M12 := 0, M13 := 0, M14 := 0
    M21 := 0, M22 := (2 : F32) / (t - b), M23 := 0, M24 := 0
    M31 := 0, M32 := 0, M33 := half, M34 := 0
    M41 := (l + r) / (l - r), M42 := (t + b) / (b - t), M43 := half, M44 := 1 }

/-- The `SetTransform` calls of `set_render_state`, in order, as
(transform-state, matrix) pairs. -/
def transformCalls (dd : DrawData) : List (Nat × Mat4) :=
  (setRenderStateCalls dd).filterMap fun c =>
    match c with
    | .setTransform ty m => some (ty, m)
    | _ => none

/-! ## Concrete inputs used by witnesses and counterexamples -/

/-- A concrete caller device state (everything in its reset state). -/
def initDev : DeviceState :=
  ⟨[], [], [], [], none, none, none, none, none, none, false, none⟩

/-- A concrete freshly-constructed renderer state: empty trace, buffer
capacities as produced by `Renderer::new` (0 plus the margins). -/
def initSt : St := ⟨0, [], initDev, false, false, 5000, 10000, 0, 0⟩

/-- A concrete source vertex with color bytes (10, 20, 30, 40). -/
def vtx0 : DrawVert := ⟨(0, 0), ⟨10, 20, 30, 40⟩, (0, 0)⟩

/-- The end-to-end scenario of the spec: one draw list with 4 vertices,
6 indices, and one Elements command with count 6 and the font texture id. -/
def dd1 : DrawData :=
  { displaySize := (800, 600), displayPos := (0, 0), framebufferScale := (1, 1)
    totalVtxCount := 4, totalIdxCount := 6
    drawLists := [⟨[vtx0, vtx0, vtx0, vtx0], [0, 1, 2, 0, 2, 3],
                   [.elements 6 ⟨⟨0, 0, 800, 600⟩, FONT_TEX_ID⟩]⟩] }

/-- A frame whose draw list runs a raw callback that rebinds stage-0 to a
caller texture, followed by an Elements command with the font id. -/
def dd2 : DrawData :=
  { displaySize := (800, 600), displayPos := (0, 0), framebufferScale := (1, 1)
    totalVtxCount := 0, totalIdxCount := 0
    drawLists := [⟨[], [],
                   [.rawCallback (fun d => { d with texture0 := some (.user 99) }),
                    .elements 3 ⟨⟨0, 0, 0, 0⟩, FONT_TEX_ID⟩]⟩] }

/-- A frame whose second Elements command names a texture id that is neither
the font id nor present in the (empty) registry. -/
def ddBad : DrawData :=
  { displaySize := (800, 600), displayPos := (0, 0), framebufferScale := (1, 1)
    totalVtxCount := 4, totalIdxCount := 6
    drawLists := [⟨[vtx0, vtx0, vtx0, vtx0], [0, 1, 2, 0, 2, 3],
                   [.elements 3 ⟨⟨0, 0, 800, 600⟩, FONT_TEX_ID⟩,
                    .elements 3 ⟨⟨0, 0, 800, 600⟩, 7⟩]⟩] }

/-- A frame whose vertex total exceeds the fresh vertex-buffer capacity. -/
def ddGrow : DrawData :=
  { displaySize := (800, 600), displayPos := (0, 0), framebufferScale := (1, 1)
    totalVtxCount := 6000, totalIdxCount := 0, drawLists := [] }

/-- An empty frame (no draw lists). -/
def dd0 : DrawData :=
  { displaySize := (800, 600), displayPos := (0, 0), framebufferScale := (1, 1)
    totalVtxCount := 0, totalIdxCount := 0, drawLists := [] }

/-- A frame with a negative display width. -/
def ddNeg : DrawData :=
  { displaySize := (⟨-1, 1⟩, 600), displayPos := (0, 0), framebufferScale := (1, 1)
    totalVtxCount := 0, totalIdxCount := 0, drawLists := [] }

/-- An oracle that fails call number `n` (0-based) with code `e` and lets
every other call succeed. -/
def failAt (n e : Nat) : Oracle := fun k => if k = n then some e else none

/-! ## Claim C9: negative display size is a silent no-op -/

/-- C9: for every draw-data input in which at least one display-size
dimension is negative, `render` returns success immediately with zero device
calls, leaving the renderer's buffers and the device untouched (the whole
interpreter state is returned unchanged and the draw log is empty). -/
theorem c9_negative_display_size_noop (o : Oracle) (dd : DrawData)
    (textures : List (Nat × Nat)) (s0 : St)
    (h : (dd.displaySize.1.isNeg || dd.displaySize.2.isNeg) = true) :
    render o dd textures s0 = (.ok, s0, []) := by
  unfold render
  simp [h]

/-- Witness for C9 at the concrete frame with display width -1. -/
theorem c9_negative_display_size_noop_witness :
    render allOk ddNeg [] initSt = (.ok, initSt, []) ∧
    ddNeg.displaySize.1.isNeg = true :=
  ⟨c9_negative_display_size_noop allOk ddNeg [] initSt (by decide), by decide⟩

/-! ## Claim C5: vertex conversion during buffer upload -/

/-- C5: every vertex copied during buffer upload is the source vertex with
its 2D position extended by z = 0, its color bytes reordered from
(c0, c1, c2, c3) to (c2, c1, c0, c3), and its UV unchanged; in particular
source color bytes (10, 20, 30, 40) map to device bytes (30, 20, 10, 40). -/
theorem c5_vertex_conversion :
    (∀ (room : Nat) (ls : List DrawList) (out : List CustomVertex),
        writeVerts room ls = some out →
        out = ((ls.map DrawList.vtxBuffer).flatten).map customVertexOf)
    ∧ (∀ v : DrawVert, (customVertexOf v).pos = (v.pos.1, v.pos.2, 0) ∧
        (customVertexOf v).col = ⟨v.col.c2, v.col.c1, v.col.c0, v.col.c3⟩ ∧
        (customVertexOf v).uv = (v.uv.1, v.uv.2))
    ∧ (customVertexOf vtx0).col = ⟨30, 20, 10, 40⟩ := by
  refine ⟨?_, fun v => ⟨rfl, rfl, rfl⟩, rfl⟩
  intro room ls
  induction ls generalizing room with
  | nil =>
    intro out h
    simp only [writeVerts, Option.some.injEq] at h
    simp [← h]
  | cons dl rest ih =>
    intro out h
    simp only [writeVerts] at h
    split at h
    · rw [Option.map_eq_some'] at h
      obtain ⟨a, ha, hout⟩ := h
      subst hout
      simp [ih _ _ ha]
    · exact absurd h (by simp)

/-- Witness for C5: the conversion law applied to a concrete one-list frame. -/
theorem c5_vertex_conversion_witness :
    [customVertexOf vtx0] =
      ((([⟨[vtx0], [], []⟩] : List DrawList).map DrawList.vtxBuffer).flatten).map customVertexOf :=
  c5_vertex_conversion.1 3 [⟨[vtx0], [], []⟩] [customVertexOf vtx0] (by rfl)

/-! ## Claim C10: vertex buffer unlocked when the index-buffer lock fails -/

/-- C10: if the vertex-buffer lock succeeds and the index-buffer lock then
fails, `lock_buffers` unlocks the vertex buffer before returning the
index-lock error, so (when the unlock succeeds) no buffer is left locked on
that error path. -/
theorem c10_vb_unlocked_on_ib_lock_failure (o : Oracle) (vn ic : Nat) (s : St) (e : Nat)
    (h1 : o s.oracleIdx = none) (h2 : o (s.oracleIdx + 1) = some e)
    (h3 : s.ibLocked = false) (h4 : o (s.oracleIdx + 2) = none) :
    (lockBuffers o vn ic s).1 = some e ∧
    (lockBuffers o vn ic s).2.vbLocked = false ∧
    (lockBuffers o vn ic s).2.ibLocked = false ∧
    (lockBuffers o vn ic s).2.trace = s.trace ++ [.vbLock vn, .ibLock ic, .vbUnlock] := by
  have h4' : o (s.oracleIdx + 1 + 1) = none := h4
  simp [lockBuffers, callDev, h1, h2, h4', stepLocks, stepDev, h3]

/-- Witness for C10 with the second device call failing with code 7. -/
theorem c10_vb_unlocked_on_ib_lock_failure_witness :
    (lockBuffers (failAt 1 7) 4 6 initSt).1 = some 7 ∧
    (lockBuffers (failAt 1 7) 4 6 initSt).2.vbLocked = false ∧
    (lockBuffers (failAt 1 7) 4 6 initSt).2.ibLocked = false ∧
    (lockBuffers (failAt 1 7) 4 6 initSt).2.trace =
      initSt.trace ++ [.vbLock 4, .ibLock 6, .vbUnlock] :=
  c10_vb_unlocked_on_ib_lock_failure (failAt 1 7) 4 6 initSt 7
    (by decide) (by decide) (by decide) (by decide)

/-! ## Claim C8: transforms set by set_render_state -/

/-- C8: the projection matrix set during pipeline-state setup equals the
spec's formula entry for entry, and the view transform is set to the
identity — but the third `SetTransform` call passes transform-state 0, which
is not the D3D9 world-transform state (`D3DTS_WORLD` is 256), so the world
transform is never set: no transform call targets `D3DTS_WORLD`. -/
theorem c8_transform_calls (dd : DrawData) :
    transformCalls dd = [(0, MAT_IDENTITY), (D3DTS_VIEW, MAT_IDENTITY),
      (D3DTS_PROJECTION, matProjection dd)] ∧
    matProjection dd = matProjectionSpec dd ∧
    (D3DTS_VIEW, MAT_IDENTITY) ∈ transformCalls dd ∧
    (∀ m : Mat4, (D3DTS_WORLD, m) ∉ transformCalls dd) := by
  refine ⟨rfl, rfl, by simp [transformCalls, setRenderStateCalls], ?_⟩
  intro m hm
  rw [show transformCalls dd = [(0, MAT_IDENTITY), (D3DTS_VIEW, MAT_IDENTITY),
      (D3DTS_PROJECTION, matProjection dd)] from rfl] at hm
  simp only [List.mem_cons, List.not_mem_nil, or_false, Prod.mk.injEq] at hm
  rcases hm with ⟨h, -⟩ | ⟨h, -⟩ | ⟨h, -⟩ <;> exact absurd h (by decide)

/-! ## Claim C1: device state restored on every return path -/

lemma callDev_dev_of_inert (o : Oracle) (c : DevCall) (s : St)
    (h : ∀ d, stepDev c d = d) : ((callDev o c s).2).dev = s.dev := by
  unfold callDev
  split <;> simp [h]

lemma createVertexBuffer_dev (o : Oracle) (n : Nat) (s : St) :
    ((createVertexBuffer o n s).2).dev = s.dev := by
  unfold createVertexBuffer
  rcases h : callDev o (.createVertexBuffer (n + VERTEX_BUF_ADD_CAPACITY)) s with ⟨r, s1⟩
  have hd : s1.dev = s.dev := by
    have h2 := callDev_dev_of_inert o (.createVertexBuffer (n + VERTEX_BUF_ADD_CAPACITY)) s
      (fun d => rfl)
    rw [h] at h2
    exact h2
  cases r <;> simp [h, hd]

lemma createIndexBuffer_dev (o : Oracle) (n : Nat) (s : St) :
    ((createIndexBuffer o n s).2).dev = s.dev := by
  unfold createIndexBuffer
  rcases h : callDev o (.createIndexBuffer (n + INDEX_BUF_ADD_CAPACITY)) s with ⟨r, s1⟩
  have hd : s1.dev = s.dev := by
    have h2 := callDev_dev_of_inert o (.createIndexBuffer (n + INDEX_BUF_ADD_CAPACITY)) s
      (fun d => rfl)
    rw [h] at h2
    exact h2
  cases r <;> simp [h, hd]

lemma growBuffers_dev (o : Oracle) (dd : DrawData) (s : St) :
    ((growBuffers o dd s).2).dev = s.dev := by
  unfold growBuffers
  rcases h1 : (if s.vbCap < dd.totalVtxCount then createVertexBuffer o dd.totalVtxCount s
      else (none, s)) with ⟨r1, s1⟩
  have hd1 : s1.dev = s.dev := by
    by_cases hc : s.vbCap < dd.totalVtxCount
    · rw [if_pos hc] at h1
      have := createVertexBuffer_dev o dd.totalVtxCount s
      rw [h1] at this
      exact this
    · rw [if_neg hc] at h1
      cases h1
      rfl
  cases r1 with
  | some e => simp [h1, hd1]
  | none =>
    simp only [h1]
    by_cases hc : s1.ibCap < dd.totalIdxCount
    · rw [if_pos hc]
      rw [createIndexBuffer_dev o dd.totalIdxCount s1, hd1]
    · rw [if_neg hc]
      exact hd1

/-- C1: for every draw-data input with non-negative display size, whenever
`render` returns (success, a device error, or the invalid-reference error —
any non-panic outcome), the captured device state after the call is
identical to the state immediately before the call: the snapshot taken after
buffer sizing is re-applied on every exit path. -/
theorem c1_render_restores_device_state (o : Oracle) (dd : DrawData)
    (textures : List (Nat × Nat)) (s0 : St) (out : Outcome) (s1 : St) (log : List DrawRec)
    (h1 : dd.displaySize.1.isNeg = false) (h2 : dd.displaySize.2.isNeg = false)
    (heq : render o dd textures s0 = (out, s1, log))
    (hret : ∀ src, out ≠ Outcome.panicked src) :
    s1.dev = s0.dev := by
  unfold render at heq
  rw [h1, h2] at heq
  simp only [Bool.or_self, Bool.false_eq_true, if_false] at heq
  split at heq
  next e sg hg =>
    cases heq
    have h := growBuffers_dev o dd s0
    rw [hg] at h
    exact h
  next sg hg =>
    have hgd : sg.dev = s0.dev := by
      have h := growBuffers_dev o dd s0
      rw [hg] at h
      exact h
    split at heq
    next e sc hc =>
      cases heq
      have h := callDev_dev_of_inert o .createStateBlock sg (fun d => rfl)
      rw [hc] at h
      exact h.trans hgd
    next sc hc =>
      have hcd : sc.dev = sg.dev := by
        have h := callDev_dev_of_inert o .createStateBlock sg (fun d => rfl)
        rw [hc] at h
        exact h
      split at heq
      next sa ha =>
        cases heq
        exact hcd.trans hgd
      next e sa ha =>
        split at heq
        next src hsrc =>
          cases heq
          exact absurd rfl (hret src)
        next x hx =>
          cases heq
          exact absurd rfl (hret (.call .applyStateBlock))

/-- Witness for C1: a full successful frame leaves the concrete device state
unchanged. -/
theorem c1_render_restores_device_state_witness :
    ((render allOk dd1 [] initSt).2.1).dev = initSt.dev :=
  c1_render_restores_device_state allOk dd1 [] initSt
    (render allOk dd1 [] initSt).1 (render allOk dd1 [] initSt).2.1
    (render allOk dd1 [] initSt).2.2 (by decide) (by decide) rfl
    (by intro src h; rw [show (render allOk dd1 [] initSt).1 = Outcome.ok from by decide] at h; cases h)

/-! ## Claim C4: error-surfacing discipline of render -/

/-- The oracle interval `[a, b)` consists of successful calls only. -/
def okRange (o : Oracle) (a b : Nat) : Prop :=
  a ≤ b ∧ ∀ n, a ≤ n → n < b → o n = none

lemma okRange_refl (o : Oracle) (a : Nat) : okRange o a a :=
  ⟨Nat.le_refl _, fun _ h1 h2 => absurd (Nat.lt_of_le_of_lt h1 h2) (Nat.lt_irrefl _)⟩

lemma okRange_trans {o : Oracle} {a b c : Nat} (h1 : okRange o a b) (h2 : okRange o b c) :
    okRange o a c := by
  refine ⟨Nat.le_trans h1.1 h2.1, fun n hn1 hn2 => ?_⟩
  by_cases h : n < b
  · exact h1.2 n hn1 h
  · exact h2.2 n (Nat.le_of_not_lt h) hn2

lemma callDev_fields (o : Oracle) (c : DevCall) (s : St) (r : Option Nat) (s' : St)
    (h : callDev o c s = (r, s')) :
    s'.oracleIdx = s.oracleIdx + 1 ∧
    (r = none → o s.oracleIdx = none) ∧
    (∀ e, r = some e → o s.oracleIdx = some e) := by
  unfold callDev at h
  split at h <;> cases h <;> simp_all

lemma callDev_okr (o : Oracle) (c : DevCall) (s : St) (s' : St)
    (h : callDev o c s = (none, s')) : okRange o s.oracleIdx s'.oracleIdx := by
  obtain ⟨hi, hok, -⟩ := callDev_fields o c s none s' h
  rw [hi]
  refine ⟨Nat.le_succ _, fun n h1 h2 => ?_⟩
  have hn : n = s.oracleIdx := by omega
  rw [hn]
  exact hok rfl

lemma runCalls_okr (o : Oracle) : ∀ (cs : List DevCall) (s s' : St),
    runCalls o cs s = (none, s') → okRange o s.oracleIdx s'.oracleIdx := by
  intro cs
  induction cs with
  | nil =>
    intro s s' h
    cases h
    exact okRange_refl o _
  | cons c rest ih =>
    intro s s' h
    unfold runCalls at h
    split at h
    next => cases h
    next =>
      rename_i s1 hc
      exact okRange_trans (callDev_okr o c s _ hc) (ih s1 s' h)

lemma runCalls_err (o : Oracle) : ∀ (cs : List DevCall) (s s' : St) (e : Nat),
    runCalls o cs s = (some e, s') → ∃ n, o n = some e := by
  intro cs
  induction cs with
  | nil => intro s s' e h; cases h
  | cons c rest ih =>
    intro s s' e h
    unfold runCalls at h
    split at h
    next =>
      rename_i e1 s1 hc
      cases h
      exact ⟨s.oracleIdx, (callDev_fields o c s _ _ hc).2.2 _ rfl⟩
    next =>
      rename_i s1 hc
      exact ih s1 s' e h

lemma lockBuffers_okr (o : Oracle) (vn ic : Nat) (s s' : St)
    (h : lockBuffers o vn ic s = (none, s')) : okRange o s.oracleIdx s'.oracleIdx := by
  unfold lockBuffers at h
  split at h
  next => cases h
  next =>
    rename_i s1 hc1
    split at h
    next =>
      rename_i s2 hc2
      cases h
      exact okRange_trans (callDev_okr o _ s _ hc1) (callDev_okr o _ s1 _ hc2)
    next =>
      split at h <;> cases h

lemma lockBuffers_err (o : Oracle) (vn ic : Nat) (s s' : St) (e : Nat)
    (h : lockBuffers o vn ic s = (some e, s')) : ∃ n, o n = some e := by
  unfold lockBuffers at h
  split at h
  next =>
    rename_i e1 s1 hc1
    cases h
    exact ⟨s.oracleIdx, (callDev_fields o _ s _ _ hc1).2.2 _ rfl⟩
  next =>
    rename_i s1 hc1
    split at h
    next => cases h
    next =>
      rename_i e1 s2 hc2
      split at h
      next =>
        rename_i e2 s3 hc3
        cases h
        exact ⟨s2.oracleIdx, (callDev_fields o _ s2 _ _ hc3).2.2 _ rfl⟩
      next =>
        rename_i s3 hc3
        cases h
        exact ⟨s1.oracleIdx, (callDev_fields o _ s1 _ _ hc2).2.2 _ rfl⟩

lemma unlockAndBind_outcomes (o : Oracle) (s1 : St) (out : Outcome) (s' : St)
    (h : unlockAndBind o s1 = (out, s')) :
    (∀ src, out ≠ .panicked src) ∧
    (∀ e, out = .err e → ∃ n, o n = some e) ∧
    (out = .ok → okRange o s1.oracleIdx s'.oracleIdx) := by
  unfold unlockAndBind at h
  split at h
  next =>
    rename_i e1 s2 hc
    cases h
    exact ⟨fun src hx => (nomatch hx),
      fun e' hx => (by cases hx; exact ⟨s1.oracleIdx, (callDev_fields o _ s1 _ _ hc).2.2 _ rfl⟩),
      fun hx => (nomatch hx)⟩
  next =>
    rename_i s2 hc
    have hr2 := callDev_okr o _ s1 _ hc
    split at h
    next =>
      rename_i e1 s3 hc3
      cases h
      exact ⟨fun src hx => (nomatch hx),
        fun e' hx => (by cases hx; exact ⟨s2.oracleIdx, (callDev_fields o _ s2 _ _ hc3).2.2 _ rfl⟩),
        fun hx => (nomatch hx)⟩
    next =>
      rename_i s3 hc3
      have hr3 := okRange_trans hr2 (callDev_okr o _ s2 _ hc3)
      split at h
      next =>
        rename_i e1 s4 hc4
        cases h
        exact ⟨fun src hx => (nomatch hx),
          fun e' hx => (by cases hx; exact ⟨s3.oracleIdx, (callDev_fields o _ s3 _ _ hc4).2.2 _ rfl⟩),
          fun hx => (nomatch hx)⟩
      next =>
        rename_i s4 hc4
        have hr4 := okRange_trans hr3 (callDev_okr o _ s3 _ hc4)
        split at h
        next =>
          rename_i e1 s5 hc5
          cases h
          exact ⟨fun src hx => (nomatch hx),
            fun e' hx => (by cases hx; exact ⟨s4.oracleIdx, (callDev_fields o _ s4 _ _ hc5).2.2 _ rfl⟩),
            fun hx => (nomatch hx)⟩
        next =>
          rename_i s5 hc5
          have hr5 := okRange_trans hr4 (callDev_okr o _ s4 _ hc5)
          split at h
          next =>
            rename_i e1 s6 hc6
            cases h
            exact ⟨fun src hx => (nomatch hx),
              fun e' hx => (by cases hx; exact ⟨s5.oracleIdx, (callDev_fields o _ s5 _ _ hc6).2.2 _ rfl⟩),
              fun hx => (nomatch hx)⟩
          next =>
            rename_i s6 hc6
            cases h
            exact ⟨fun src hx => (nomatch hx), fun e' hx => (nomatch hx),
              fun hx => okRange_trans hr5 (callDev_okr o _ s5 _ hc6)⟩

lemma writeBuffers_outcomes (o : Oracle) (dd : DrawData) (s : St) (out : Outcome) (s' : St)
    (h : writeBuffers o dd s = (out, s')) :
    (∀ src, out = .panicked src → src = .copyOob) ∧
    (∀ e, out = .err e → ∃ n, o n = some e) ∧
    (out = .ok → okRange o s.oracleIdx s'.oracleIdx) := by
  unfold writeBuffers at h
  split at h
  next =>
    rename_i e1 s1 hl
    cases h
    exact ⟨fun src hx => (nomatch hx),
      fun e' hx => (by cases hx; exact lockBuffers_err o _ _ s _ _ hl),
      fun hx => (nomatch hx)⟩
  next =>
    rename_i s1 hl
    have hr1 := lockBuffers_okr o dd.totalVtxCount dd.totalIdxCount s s1 hl
    split at h
    next =>
      cases h
      exact ⟨fun src hx => (by cases hx; rfl), fun e hx => (nomatch hx), fun hx => (nomatch hx)⟩
    next =>
      split at h
      next =>
        cases h
        exact ⟨fun src hx => (by cases hx; rfl), fun e hx => (nomatch hx), fun hx => (nomatch hx)⟩
      next =>
        obtain ⟨hp, he, ho⟩ := unlockAndBind_outcomes o s1 out s' h
        exact ⟨fun src hx => absurd hx (hp src), he, fun hx => okRange_trans hr1 (ho hx)⟩

lemma bindTexture_err (o : Oracle) (textures : List (Nat × Nat)) (p : DrawCmdParams)
    (ls ls' : LoopSt) (e : Nat) (h : bindTexture o textures p ls = (some e, ls')) :
    (∃ n, o n = some e) ∨ e = DXGI_ERROR_INVALID_CALL := by
  unfold bindTexture at h
  split at h
  next => cases h
  next =>
    split at h
    next =>
      cases h
      exact Or.inr rfl
    next =>
      split at h
      next =>
        rename_i e1 s1 hc
        cases h
        exact Or.inl ⟨ls.st.oracleIdx, (callDev_fields o _ ls.st _ _ hc).2.2 _ rfl⟩
      next => cases h

lemma bindTexture_okr (o : Oracle) (textures : List (Nat × Nat)) (p : DrawCmdParams)
    (ls ls' : LoopSt) (h : bindTexture o textures p ls = (none, ls')) :
    okRange o ls.st.oracleIdx ls'.st.oracleIdx := by
  unfold bindTexture at h
  split at h
  next =>
    cases h
    exact okRange_refl o _
  next =>
    split at h
    next => cases h
    next =>
      split at h
      next => cases h
      next =>
        rename_i s1 hc
        cases h
        exact callDev_okr o _ ls.st _ hc

lemma elementsStep_err (o : Oracle) (dd : DrawData) (textures : List (Nat × Nat))
    (dl : DrawList) (count : Nat) (p : DrawCmdParams) (ls ls' : LoopSt) (e : Nat)
    (h : elementsStep o dd textures dl count p ls = (some e, ls')) :
    (∃ n, o n = some e) ∨ e = DXGI_ERROR_INVALID_CALL := by
  unfold elementsStep at h
  split at h
  next =>
    rename_i e1 ls1 hb
    cases h
    exact bindTexture_err o textures p ls _ e hb
  next =>
    rename_i ls1 hb
    split at h
    next =>
      rename_i e1 s1 hc
      cases h
      exact Or.inl ⟨ls1.st.oracleIdx, (callDev_fields o _ ls1.st _ _ hc).2.2 _ rfl⟩
    next =>
      rename_i s1 hc
      split at h
      next =>
        rename_i e1 s2 hc2
        cases h
        exact Or.inl ⟨s1.oracleIdx, (callDev_fields o _ s1 _ _ hc2).2.2 _ rfl⟩
      next => cases h

lemma elementsStep_okr (o : Oracle) (dd : DrawData) (textures : List (Nat × Nat))
    (dl : DrawList) (count : Nat) (p : DrawCmdParams) (ls ls' : LoopSt)
    (h : elementsStep o dd textures dl count p ls = (none, ls')) :
    okRange o ls.st.oracleIdx ls'.st.oracleIdx := by
  unfold elementsStep at h
  split at h
  next => cases h
  next =>
    rename_i ls1 hb
    have hb1 := bindTexture_okr o textures p ls ls1 hb
    split at h
    next => cases h
    next =>
      rename_i s1 hc
      split at h
      next => cases h
      next =>
        rename_i s2 hc2
        cases h
        exact okRange_trans hb1 (okRange_trans (callDev_okr o _ ls1.st _ hc)
          (callDev_okr o _ s1 _ hc2))

lemma runCmds_err (o : Oracle) (dd : DrawData) (textures : List (Nat × Nat)) (dl : DrawList) :
    ∀ (cmds : List DrawCmd) (ls ls' : LoopSt) (e : Nat),
    runCmds o dd textures dl cmds ls = (some e, ls') →
    (∃ n, o n = some e) ∨ e = DXGI_ERROR_INVALID_CALL := by
  intro cmds
  induction cmds with
  | nil => intro ls ls' e h; cases h
  | cons c rest ih =>
    intro ls ls' e h
    cases c with
    | elements count p =>
      unfold runCmds at h
      split at h
      next =>
        rename_i e1 ls1 he
        cases h
        exact elementsStep_err o dd textures dl count p ls _ e he
      next =>
        rename_i ls1 he
        exact ih ls1 ls' e h
    | resetRenderState =>
      unfold runCmds at h
      split at h
      next =>
        rename_i e1 s1 hr
        cases h
        exact Or.inl (runCalls_err o _ ls.st _ _ hr)
      next => exact ih _ ls' e h
    | rawCallback f =>
      unfold runCmds at h
      exact ih _ _ _ h

lemma runCmds_okr (o : Oracle) (dd : DrawData) (textures : List (Nat × Nat)) (dl : DrawList) :
    ∀ (cmds : List DrawCmd) (ls ls' : LoopSt),
    runCmds o dd textures dl cmds ls = (none, ls') →
    okRange o ls.st.oracleIdx ls'.st.oracleIdx := by
  intro cmds
  induction cmds with
  | nil =>
    intro ls ls' h
    cases h
    exact okRange_refl o _
  | cons c rest ih =>
    intro ls ls' h
    cases c with
    | elements count p =>
      unfold runCmds at h
      split at h
      next => cases h
      next =>
        rename_i ls1 he
        exact okRange_trans (elementsStep_okr o dd textures dl count p ls ls1 he) (ih ls1 ls' h)
    | resetRenderState =>
      unfold runCmds at h
      split at h
      next => cases h
      next =>
        rename_i s1 hr
        exact okRange_trans (runCalls_okr o _ ls.st s1 hr) (ih _ ls' h)
    | rawCallback f =>
      unfold runCmds at h
      have hres := ih _ _ h
      exact hres

lemma runLists_err (o : Oracle) (dd : DrawData) (textures : List (Nat × Nat)) :
    ∀ (lists : List DrawList) (ls ls' : LoopSt) (e : Nat),
    runLists o dd textures lists ls = (some e, ls') →
    (∃ n, o n = some e) ∨ e = DXGI_ERROR_INVALID_CALL := by
  intro lists
  induction lists with
  | nil => intro ls ls' e h; cases h
  | cons dl rest ih =>
    intro ls ls' e h
    unfold runLists at h
    split at h
    next =>
      rename_i e1 ls1 hc
      cases h
      exact runCmds_err o dd textures dl dl.commands ls _ e hc
    next => exact ih _ ls' e h

lemma runLists_okr (o : Oracle) (dd : DrawData) (textures : List (Nat × Nat)) :
    ∀ (lists : List DrawList) (ls ls' : LoopSt),
    runLists o dd textures lists ls = (none, ls') →
    okRange o ls.st.oracleIdx ls'.st.oracleIdx := by
  intro lists
  induction lists with
  | nil =>
    intro ls ls' h
    cases h
    exact okRange_refl o _
  | cons dl rest ih =>
    intro ls ls' h
    unfold runLists at h
    split at h
    next => cases h
    next =>
      rename_i ls1 hc
      have h2 := ih _ ls' h
      exact okRange_trans (runCmds_okr o dd textures dl dl.commands ls ls1 hc) h2

lemma renderImpl_outcomes (o : Oracle) (dd : DrawData) (textures : List (Nat × Nat)) (s : St)
    (out : Outcome) (s' : St) (log : List DrawRec)
    (h : renderImpl o dd textures s = (out, s', log)) :
    (∀ src, out = .panicked src → src = .call (.setTexture .font)) ∧
    (∀ e, out = .err e → (∃ n, o n = some e) ∨ e = DXGI_ERROR_INVALID_CALL) ∧
    (out = .ok → okRange o s.oracleIdx s'.oracleIdx) := by
  unfold renderImpl at h
  split at h
  next =>
    cases h
    exact ⟨fun src hx => (by cases hx; rfl), fun e' hx => (nomatch hx), fun hx => (nomatch hx)⟩
  next =>
    rename_i s1 hc
    have hr1 := callDev_okr o _ s _ hc
    split at h
    next =>
      rename_i e1 ls hr
      cases h
      exact ⟨fun src hx => (nomatch hx),
        fun e' hx => (by cases hx; exact runLists_err o dd textures dd.drawLists _ _ _ hr),
        fun hx => (nomatch hx)⟩
    next =>
      rename_i ls hr
      cases h
      exact ⟨fun src hx => (nomatch hx), fun e' hx => (nomatch hx),
        fun hx => okRange_trans hr1 (runLists_okr o dd textures dd.drawLists _ ls hr)⟩

lemma renderBody_outcomes (o : Oracle) (dd : DrawData) (textures : List (Nat × Nat)) (s : St)
    (out : Outcome) (s' : St) (log : List DrawRec)
    (h : renderBody o dd textures s = (out, s', log)) :
    (∀ src, out = .panicked src → src = .call (.setTexture .font) ∨ src = .copyOob) ∧
    (∀ e, out = .err e → (∃ n, o n = some e) ∨ e = DXGI_ERROR_INVALID_CALL) ∧
    (out = .ok → okRange o s.oracleIdx s'.oracleIdx) := by
  unfold renderBody at h
  split at h
  next =>
    rename_i e1 s1 hs
    cases h
    exact ⟨fun src hx => (nomatch hx),
      fun e' hx => (by cases hx; exact Or.inl (runCalls_err o _ s _ _ hs)),
      fun hx => (nomatch hx)⟩
  next =>
    rename_i s1 hs
    have hr1 := runCalls_okr o _ s s1 hs
    split at h
    next =>
      rename_i s2 hw
      obtain ⟨hip, hie, hio⟩ := renderImpl_outcomes o dd textures s2 out s' log h
      obtain ⟨-, -, hw3⟩ := writeBuffers_outcomes o dd s1 .ok s2 hw
      exact ⟨fun src hx => Or.inl (hip src hx), hie,
        fun hx => okRange_trans hr1 (okRange_trans (hw3 rfl) (hio hx))⟩
    next =>
      rename_i hw
      cases h
      obtain ⟨hwp, hwe, hwo⟩ := writeBuffers_outcomes o dd s1 _ _ hw
      exact ⟨fun src hx => Or.inr (hwp src hx), fun e hx => Or.inl (hwe e hx),
        fun hx => okRange_trans hr1 (hwo hx)⟩

lemma createVertexBuffer_outcomes (o : Oracle) (m : Nat) (s : St) (r : Option Nat) (s1 : St)
    (h : createVertexBuffer o m s = (r, s1)) :
    (∀ e, r = some e → ∃ n, o n = some e) ∧ (r = none → okRange o s.oracleIdx s1.oracleIdx) := by
  unfold createVertexBuffer at h
  split at h
  next =>
    rename_i e1 s2 hc
    cases h
    exact ⟨fun e' he => (by cases he; exact ⟨s.oracleIdx, (callDev_fields o _ s _ _ hc).2.2 _ rfl⟩),
      fun he => (nomatch he)⟩
  next =>
    rename_i s2 hc
    cases h
    exact ⟨fun e' he => (nomatch he), fun _ => callDev_okr o _ s s2 hc⟩

lemma createIndexBuffer_outcomes (o : Oracle) (m : Nat) (s : St) (r : Option Nat) (s1 : St)
    (h : createIndexBuffer o m s = (r, s1)) :
    (∀ e, r = some e → ∃ n, o n = some e) ∧ (r = none → okRange o s.oracleIdx s1.oracleIdx) := by
  unfold createIndexBuffer at h
  split at h
  next =>
    rename_i e1 s2 hc
    cases h
    exact ⟨fun e' he => (by cases he; exact ⟨s.oracleIdx, (callDev_fields o _ s _ _ hc).2.2 _ rfl⟩),
      fun he => (nomatch he)⟩
  next =>
    rename_i s2 hc
    cases h
    exact ⟨fun e' he => (nomatch he), fun _ => callDev_okr o _ s s2 hc⟩

lemma growBuffers_outcomes (o : Oracle) (dd : DrawData) (s : St) (r : Option Nat) (s' : St)
    (h : growBuffers o dd s = (r, s')) :
    (∀ e, r = some e → ∃ n, o n = some e) ∧ (r = none → okRange o s.oracleIdx s'.oracleIdx) := by
  unfold growBuffers at h
  rcases h1 : (if s.vbCap < dd.totalVtxCount then createVertexBuffer o dd.totalVtxCount s
      else (none, s)) with ⟨r1, s1⟩
  rw [h1] at h
  have hv : (∀ e, r1 = some e → ∃ n, o n = some e) ∧
      (r1 = none → okRange o s.oracleIdx s1.oracleIdx) := by
    by_cases hb : s.vbCap < dd.totalVtxCount
    · rw [if_pos hb] at h1
      exact createVertexBuffer_outcomes o dd.totalVtxCount s r1 s1 h1
    · rw [if_neg hb] at h1
      cases h1
      exact ⟨fun e he => (nomatch he), fun _ => okRange_refl o _⟩
  cases r1 with
  | some e1 =>
    have h' : ((some e1 : Option Nat), s1) = (r, s') := h
    cases h'
    exact ⟨fun e' he => (by cases he; exact hv.1 _ rfl), fun he => (nomatch he)⟩
  | none =>
    have hr1 := hv.2 rfl
    have h' : (if s1.ibCap < dd.totalIdxCount then createIndexBuffer o dd.totalIdxCount s1
        else (none, s1)) = (r, s') := h
    by_cases hb : s1.ibCap < dd.totalIdxCount
    · rw [if_pos hb] at h'
      obtain ⟨hce, hco⟩ := createIndexBuffer_outcomes o dd.totalIdxCount s1 r s' h'
      exact ⟨hce, fun hr => okRange_trans hr1 (hco hr)⟩
    · rw [if_neg hb] at h'
      cases h'
      exact ⟨fun e' he => (nomatch he), fun _ => hr1⟩

lemma forall_err_of {P : Nat → Prop} (e1 : Nat) (h : P e1) :
    ∀ e, Outcome.err e1 = Outcome.err e → P e := fun _ he => by cases he; exact h

lemma forall_panicked_of {P : PanicSrc → Prop} (src1 : PanicSrc) (h : P src1) :
    ∀ src, Outcome.panicked src1 = Outcome.panicked src → P src := fun _ hs => by
  cases hs; exact h

/-- C4 (amended): every failing device call made during `render` surfaces to
the caller as a device-error result carrying the device's error code — the
only other error code being the invalid-texture-reference constant — and
when `render` returns success, every device call it consumed succeeded (no
failure is swallowed); however, a failure of the initial font-texture bind
of the draw loop or of the state-backup re-application panics instead of
returning an error (and inconsistent draw-data totals panic on the buffer
copy). -/
theorem c4_amended_error_surfacing :
    (∀ (o : Oracle) (dd : DrawData) (textures : List (Nat × Nat)) (s0 : St) (src : PanicSrc),
        (render o dd textures s0).1 = .panicked src →
        src = .call (.setTexture .font) ∨ src = .call .applyStateBlock ∨ src = .copyOob)
    ∧ (∀ (o : Oracle) (dd : DrawData) (textures : List (Nat × Nat)) (s0 : St) (e : Nat),
        (render o dd textures s0).1 = .err e →
        (∃ n, o n = some e) ∨ e = DXGI_ERROR_INVALID_CALL)
    ∧ (∀ (o : Oracle) (dd : DrawData) (textures : List (Nat × Nat)) (s0 : St),
        (render o dd textures s0).1 = .ok →
        ∀ n, s0.oracleIdx ≤ n → n < ((render o dd textures s0).2.1).oracleIdx → o n = none) := by
  have main : ∀ (o : Oracle) (dd : DrawData) (textures : List (Nat × Nat)) (s0 : St)
      (out : Outcome) (s1 : St) (log : List DrawRec),
      render o dd textures s0 = (out, s1, log) →
      (∀ src, out = .panicked src →
        src = .call (.setTexture .font) ∨ src = .call .applyStateBlock ∨ src = .copyOob) ∧
      (∀ e, out = .err e → (∃ n, o n = some e) ∨ e = DXGI_ERROR_INVALID_CALL) ∧
      (out = .ok → okRange o s0.oracleIdx s1.oracleIdx) := by
    intro o dd textures s0 out s1 log h
    unfold render at h
    split at h
    next =>
      cases h
      exact ⟨fun src hx => (nomatch hx), fun e hx => (nomatch hx), fun _ => okRange_refl o _⟩
    next =>
      split at h
      next =>
        rename_i e1 sg hg
        cases h
        obtain ⟨hge, -⟩ := growBuffers_outcomes o dd s0 _ _ hg
        exact ⟨fun src hx => (nomatch hx), forall_err_of e1 (Or.inl (hge _ rfl)),
          fun hx => (nomatch hx)⟩
      next =>
        rename_i sg hg
        obtain ⟨-, hgo⟩ := growBuffers_outcomes o dd s0 _ _ hg
        have hr1 := hgo rfl
        split at h
        next =>
          rename_i e1 sc hc
          cases h
          exact ⟨fun src hx => (nomatch hx),
            forall_err_of e1 (Or.inl ⟨sg.oracleIdx, (callDev_fields o _ sg _ _ hc).2.2 _ rfl⟩),
            fun hx => (nomatch hx)⟩
        next =>
          rename_i sc hc
          have hr2 := okRange_trans hr1 (callDev_okr o _ sg _ hc)
          split at h
          next =>
            rename_i outb s3 logb hb
            obtain ⟨hbp, hbe, hbo⟩ := renderBody_outcomes o dd textures sc outb s3 logb hb
            split at h
            next =>
              rename_i sa ha
              cases h
              refine ⟨fun src hx => ?_, hbe, fun hx => ?_⟩
              · rcases hbp src hx with h1 | h1
                · exact Or.inl h1
                · exact Or.inr (Or.inr h1)
              · have hr3 := okRange_trans hr2 (hbo hx)
                have hr4 := callDev_okr o _ s3 _ ha
                exact okRange_trans hr3 hr4
            next =>
              rename_i e1 sa ha
              split at h
              next =>
                rename_i src'
                cases h
                refine ⟨forall_panicked_of src' ?_, fun e' hx => (nomatch hx),
                  fun hx => (nomatch hx)⟩
                rcases hbp src' rfl with h1 | h1
                · exact Or.inl h1
                · exact Or.inr (Or.inr h1)
              next =>
                cases h
                exact ⟨forall_panicked_of _ (Or.inr (Or.inl rfl)),
                  fun e' hx => (nomatch hx), fun hx => (nomatch hx)⟩
  refine ⟨fun o dd t s0 src h => (main o dd t s0 _ _ _ rfl).1 src h,
    fun o dd t s0 e h => (main o dd t s0 _ _ _ rfl).2.1 e h,
    fun o dd t s0 h n h1 h2 => ((main o dd t s0 _ _ _ rfl).2.2 h).2 n h1 h2⟩

/-- Counterexample to C4 as stated: if the initial font-texture bind of the
draw loop (device call number 44 of this concrete frame) fails, `render`
panics instead of returning a device-error result. -/
theorem c4_counterexample_font_bind_panics :
    (render (failAt 44 5) dd0 [] initSt).1 = .panicked (.call (.setTexture .font)) ∧
    (∀ e : Nat, (render (failAt 44 5) dd0 [] initSt).1 ≠ .err e) := by
  constructor
  · decide
  · intro e h
    rw [show (render (failAt 44 5) dd0 [] initSt).1 =
      .panicked (.call (.setTexture .font)) from by decide] at h
    cases h

/-- Witness for the amended C4: the panic-source restriction applied to the
concrete run in which the font bind fails. -/
theorem c4_amended_error_surfacing_witness :
    PanicSrc.call (.setTexture .font) = .call (.setTexture (Tex.font)) ∨
    PanicSrc.call (.setTexture .font) = .call .applyStateBlock ∨
    PanicSrc.call (.setTexture .font) = .copyOob :=
  c4_amended_error_surfacing.1 (failAt 44 5) dd0 [] initSt
    (.call (.setTexture .font)) (by decide)

/-! ## Correspondence between the draw loop and the spec's walk (C2, C6, C7) -/

lemma allOk_ne_some (n e : Nat) (h : allOk n = some e) : False := by
  simp [allOk] at h

lemma runCalls_allOk (cs : List DevCall) (s : St) :
    ∃ s', runCalls allOk cs s = (none, s') := by
  induction cs generalizing s with
  | nil => exact ⟨s, rfl⟩
  | cons c rest ih => exact ih _

lemma bindTexture_allOk (textures : List (Nat × Nat)) (p : DrawCmdParams) (ls : LoopSt)
    (hv : p.textureId = FONT_TEX_ID ∨ (getA p.textureId textures).isSome = true) :
    ∃ s1, bindTexture allOk textures p ls = (none, { ls with st := s1, lastTex := p.textureId }) := by
  unfold bindTexture
  by_cases he : p.textureId = ls.lastTex
  · rw [if_pos he]
    exact ⟨ls.st, by rw [he]⟩
  · rw [if_neg he]
    by_cases hf : p.textureId = FONT_TEX_ID
    · rw [if_pos hf]
      exact ⟨_, rfl⟩
    · rw [if_neg hf]
      rcases ho : getA p.textureId textures with _ | handle
      · rcases hv with hv | hv
        · exact absurd hv hf
        · rw [ho] at hv
          cases hv
      · exact ⟨_, rfl⟩

lemma elementsStep_allOk (dd : DrawData) (textures : List (Nat × Nat)) (dl : DrawList)
    (count : Nat) (p : DrawCmdParams) (ls : LoopSt)
    (hv : p.textureId = FONT_TEX_ID ∨ (getA p.textureId textures).isSome = true) :
    ∃ ls1, elementsStep allOk dd textures dl count p ls = (none, ls1) ∧
      ls1.vertexOffset = ls.vertexOffset ∧
      ls1.indexOffset = ls.indexOffset + count ∧
      ls1.lastTex = p.textureId ∧
      ls1.log = ls.log ++ [⟨p.textureId, ls1.st.dev.texture0,
          scissorOf dd.displayPos dd.framebufferScale p.clipRect, ls.vertexOffset,
          dl.vtxBuffer.length, ls.indexOffset, count / 3⟩] := by
  obtain ⟨s1, hb⟩ := bindTexture_allOk textures p ls hv
  unfold elementsStep
  rw [hb]
  exact ⟨_, rfl, rfl, rfl, rfl, rfl⟩

lemma runCmds_spec (dd : DrawData) (textures : List (Nat × Nat)) (dl : DrawList) :
    ∀ (cmds : List DrawCmd) (ls : LoopSt),
    (ls.lastTex = FONT_TEX_ID ∨ (getA ls.lastTex textures).isSome = true) →
    ∀ rs idx' e?, specCmds textures dd.displayPos dd.framebufferScale dl.vtxBuffer.length cmds
        ls.vertexOffset ls.indexOffset = (rs, idx', e?) →
    ∃ ls', runCmds allOk dd textures dl cmds ls = (e?, ls') ∧
      ls'.log.map stripRec = ls.log.map stripRec ++ rs ∧
      ls'.vertexOffset = ls.vertexOffset ∧
      (e? = none → ls'.indexOffset = idx' ∧
        (ls'.lastTex = FONT_TEX_ID ∨ (getA ls'.lastTex textures).isSome = true)) := by
  intro cmds
  induction cmds with
  | nil =>
    intro ls hlast rs idx' e? hspec
    unfold specCmds at hspec
    cases hspec
    exact ⟨ls, rfl, by simp, rfl, fun _ => ⟨rfl, hlast⟩⟩
  | cons c rest ih =>
    intro ls hlast rs idx' e? hspec
    cases c with
    | elements count p =>
      unfold specCmds at hspec
      split at hspec
      next hv =>
        rcases hs2 : specCmds textures dd.displayPos dd.framebufferScale dl.vtxBuffer.length
            rest ls.vertexOffset (ls.indexOffset + count) with ⟨rs2, idx2, e2⟩
        rw [hs2] at hspec
        cases hspec
        obtain ⟨ls1, he, hv1, hi1, hl1, hlog1⟩ := elementsStep_allOk dd textures dl count p ls hv
        have hlast1 : ls1.lastTex = FONT_TEX_ID ∨ (getA ls1.lastTex textures).isSome = true := by
          rw [hl1]
          exact hv
        have hs2' : specCmds textures dd.displayPos dd.framebufferScale dl.vtxBuffer.length rest
            ls1.vertexOffset ls1.indexOffset = (rs2, idx', e?) := by
          rw [hv1, hi1]
          exact hs2
        obtain ⟨ls2, hr2, hlog2, hv2, hrest2⟩ := ih ls1 hlast1 rs2 idx' e? hs2'
        refine ⟨ls2, ?_, ?_, ?_, ?_⟩
        · unfold runCmds
          rw [he]
          exact hr2
        · rw [hlog2, hlog1]
          simp [stripRec, scissorOf, specScissor]
        · rw [hv2, hv1]
        · intro hok
          obtain ⟨hi2, hl2⟩ := hrest2 hok
          exact ⟨hi2, hl2⟩
      next hv =>
        cases hspec
        have hne : p.textureId ≠ ls.lastTex := by
          intro hcontra
          rw [hcontra] at hv
          exact hv hlast
        refine ⟨ls, ?_, by simp, rfl, fun hok => (by cases hok)⟩
        unfold runCmds elementsStep bindTexture
        rw [if_neg hne]
        have hnf : p.textureId ≠ FONT_TEX_ID := fun hcontra => hv (Or.inl hcontra)
        rw [if_neg hnf]
        rcases ho : getA p.textureId textures with _ | handle
        · rfl
        · exact absurd (Or.inr (by rw [ho]; rfl)) hv
    | resetRenderState =>
      unfold specCmds at hspec
      obtain ⟨s1, hrc⟩ := runCalls_allOk (setRenderStateCalls dd) ls.st
      obtain ⟨ls2, hr2, hlog2, hv2, hrest2⟩ := ih { ls with st := s1 } hlast rs idx' e? hspec
      refine ⟨ls2, ?_, hlog2, hv2, hrest2⟩
      unfold runCmds
      rw [hrc]
      exact hr2
    | rawCallback f =>
      unfold specCmds at hspec
      obtain ⟨ls2, hr2, hlog2, hv2, hrest2⟩ :=
        ih { ls with st := { ls.st with dev := f ls.st.dev } } hlast rs idx' e? hspec
      exact ⟨ls2, hr2, hlog2, hv2, hrest2⟩

lemma runLists_spec (dd : DrawData) (textures : List (Nat × Nat)) :
    ∀ (lists : List DrawList) (ls : LoopSt),
    (ls.lastTex = FONT_TEX_ID ∨ (getA ls.lastTex textures).isSome = true) →
    ∀ rs e?, specLists textures dd.displayPos dd.framebufferScale lists
        ls.vertexOffset ls.indexOffset = (rs, e?) →
    ∃ ls', runLists allOk dd textures lists ls = (e?, ls') ∧
      ls'.log.map stripRec = ls.log.map stripRec ++ rs := by
  intro lists
  induction lists with
  | nil =>
    intro ls hlast rs e? hspec
    unfold specLists at hspec
    cases hspec
    exact ⟨ls, rfl, by simp⟩
  | cons dl rest ihl =>
    intro ls hlast rs e? hspec
    unfold specLists at hspec
    rcases hc : specCmds textures dd.displayPos dd.framebufferScale dl.vtxBuffer.length
        dl.commands ls.vertexOffset ls.indexOffset with ⟨rs1, idx1, e1⟩
    obtain ⟨ls1, hr1, hlog1, hv1, hrest1⟩ :=
      runCmds_spec dd textures dl dl.commands ls hlast rs1 idx1 e1 hc
    cases e1 with
    | some e =>
      simp only [hc] at hspec
      cases hspec
      refine ⟨ls1, ?_, hlog1⟩
      unfold runLists
      rw [hr1]
    | none =>
      rcases hrest1 rfl with ⟨hi1, hl1⟩
      simp only [hc] at hspec
      rcases hs2 : specLists textures dd.displayPos dd.framebufferScale rest
          (ls.vertexOffset + dl.vtxBuffer.length) idx1 with ⟨rs2, e2⟩
      simp only [hs2] at hspec
      cases hspec
      have hspec2 : specLists textures dd.displayPos dd.framebufferScale rest
          ({ ls1 with vertexOffset := ls1.vertexOffset + dl.vtxBuffer.length } : LoopSt).vertexOffset
          ({ ls1 with vertexOffset := ls1.vertexOffset + dl.vtxBuffer.length } : LoopSt).indexOffset
          = (rs2, e?) := by
        show specLists textures dd.displayPos dd.framebufferScale rest
          (ls1.vertexOffset + dl.vtxBuffer.length) ls1.indexOffset = (rs2, e?)
        rw [hv1, hi1]
        exact hs2
      obtain ⟨ls2, hr2, hlog2⟩ :=
        ihl { ls1 with vertexOffset := ls1.vertexOffset + dl.vtxBuffer.length } hl1 rs2 e? hspec2
      refine ⟨ls2, ?_, ?_⟩
      · unfold runLists
        rw [hr1]
        exact hr2
      · rw [hlog2]
        show (ls1.log.map stripRec) ++ rs2 = ls.log.map stripRec ++ (rs1 ++ rs2)
        rw [hlog1, List.append_assoc]

/-- The outcome the spec predicts for a frame: success, or the
invalid-reference error that aborted the walk. -/
def outcomeOfSpec : Option Nat → Outcome
  | none => .ok
  | some e => .err e

lemma renderImpl_spec (dd : DrawData) (textures : List (Nat × Nat)) (s : St)
    (rs : List SpecRec) (e? : Option Nat) (hspec : specRun textures dd = (rs, e?)) :
    ∃ s' log, renderImpl allOk dd textures s = (outcomeOfSpec e?, s', log) ∧
      log.map stripRec = rs := by
  rcases hcd : callDev allOk (.setTexture .font) s with ⟨rc, s1⟩
  have hrc : rc = none := by
    have h0 : (callDev allOk (.setTexture .font) s).1 = none := rfl
    rw [hcd] at h0
    exact h0
  subst hrc
  obtain ⟨ls', hr, hlog⟩ := runLists_spec dd textures dd.drawLists
    ⟨s1, 0, 0, FONT_TEX_ID, []⟩ (Or.inl rfl) rs e? (by exact hspec)
  refine ⟨ls'.st, ls'.log, ?_, by simpa using hlog⟩
  unfold renderImpl
  simp only [hcd, hr]
  cases e? <;> rfl


lemma growBuffers_allOk (dd : DrawData) (s : St) :
    ∃ s1, growBuffers allOk dd s = (none, s1) := by
  unfold growBuffers
  rcases h1 : (if s.vbCap < dd.totalVtxCount then createVertexBuffer allOk dd.totalVtxCount s
      else (none, s)) with ⟨r1, s1⟩
  have hr1 : r1 = none := by
    by_cases hb : s.vbCap < dd.totalVtxCount
    · rw [if_pos hb] at h1
      have h0 : (createVertexBuffer allOk dd.totalVtxCount s).1 = none := rfl
      rw [h1] at h0
      exact h0
    · rw [if_neg hb] at h1
      cases h1
      rfl
  subst hr1
  simp only [h1]
  by_cases hb2 : s1.ibCap < dd.totalIdxCount
  · rw [if_pos hb2]
    exact ⟨(createIndexBuffer allOk dd.totalIdxCount s1).2, rfl⟩
  · rw [if_neg hb2]
    exact ⟨s1, rfl⟩

lemma writeBuffers_allOk (dd : DrawData) (s : St)
    (hv : (writeVerts dd.totalVtxCount dd.drawLists).isSome = true)
    (hi : (writeIdxs dd.totalIdxCount dd.drawLists).isSome = true) :
    ∃ s', writeBuffers allOk dd s = (.ok, s') := by
  rcases hlk : lockBuffers allOk dd.totalVtxCount dd.totalIdxCount s with ⟨rl, s1⟩
  have hrl : rl = none := by
    have h0 : (lockBuffers allOk dd.totalVtxCount dd.totalIdxCount s).1 = none := rfl
    rw [hlk] at h0
    exact h0
  subst hrl
  obtain ⟨v, hwv⟩ := Option.isSome_iff_exists.mp hv
  obtain ⟨iw, hwi⟩ := Option.isSome_iff_exists.mp hi
  unfold writeBuffers
  simp only [hlk, hwv, hwi]
  exact ⟨(unlockAndBind allOk s1).2, rfl⟩

lemma render_allOk_spec (dd : DrawData) (textures : List (Nat × Nat)) (s0 : St)
    (h1 : dd.displaySize.1.isNeg = false) (h2 : dd.displaySize.2.isNeg = false)
    (hv : (writeVerts dd.totalVtxCount dd.drawLists).isSome = true)
    (hi : (writeIdxs dd.totalIdxCount dd.drawLists).isSome = true)
    (rs : List SpecRec) (e? : Option Nat) (hspec : specRun textures dd = (rs, e?)) :
    ∃ s1 log, render allOk dd textures s0 = (outcomeOfSpec e?, s1, log) ∧
      log.map stripRec = rs := by
  obtain ⟨sg, hg⟩ := growBuffers_allOk dd s0
  rcases hcs : callDev allOk .createStateBlock sg with ⟨rc, sc⟩
  have hrc : rc = none := by
    have h0 : (callDev allOk .createStateBlock sg).1 = none := rfl
    rw [hcs] at h0
    exact h0
  subst hrc
  obtain ⟨ss, hsrs⟩ := runCalls_allOk (setRenderStateCalls dd) sc
  obtain ⟨sw, hw⟩ := writeBuffers_allOk dd ss hv hi
  obtain ⟨si, logi, hri, hlogi⟩ := renderImpl_spec dd textures sw rs e? hspec
  have hbody : renderBody allOk dd textures sc = (outcomeOfSpec e?, si, logi) := by
    unfold renderBody setRenderState
    simp only [hsrs, hw]
    exact hri
  rcases hap : callDev allOk .applyStateBlock si with ⟨ra, sa⟩
  have hra : ra = none := by
    have h0 : (callDev allOk .applyStateBlock si).1 = none := rfl
    rw [hap] at h0
    exact h0
  subst hra
  unfold render
  rw [h1, h2]
  simp only [Bool.or_self, Bool.false_eq_true, if_false]
  simp only [hg, hcs, hbody, hap]
  exact ⟨_, logi, rfl, hlogi⟩

/-! ## Claim C6: draw-list order, offsets, and the end-to-end scenario -/

/-- C6: under a failure-free device, for every frame whose draw data fits its
declared totals and whose texture ids all resolve, the draw calls issued by
`render` are exactly those predicted by the spec's walk (`specRun`): lists in
order, commands in order, the index offset accumulating across the whole
frame and never reset per list, the vertex offset advanced by each list's
vertex count and passed as the base-vertex argument; and the concrete
end-to-end scenario — one list, 4 vertices, 6 indices, one Elements command
with count 6 and the font id — produces exactly one draw call with base
vertex 0, index offset 0 and primitive count 2. -/
theorem c6_draw_loop_offsets :
    (∀ (dd : DrawData) (textures : List (Nat × Nat)) (s0 : St),
      dd.displaySize.1.isNeg = false → dd.displaySize.2.isNeg = false →
      (writeVerts dd.totalVtxCount dd.drawLists).isSome = true →
      (writeIdxs dd.totalIdxCount dd.drawLists).isSome = true →
      (specRun textures dd).2 = none →
      (render allOk dd textures s0).1 = .ok ∧
      ((render allOk dd textures s0).2.2).map stripRec = (specRun textures dd).1)
    ∧ (render allOk dd1 [] initSt).2.2 =
        [⟨FONT_TEX_ID, some .font, ⟨0, 0, 800, 600⟩, 0, 4, 0, 2⟩] := by
  constructor
  · intro dd textures s0 h1 h2 hv hi hok
    rcases hsp : specRun textures dd with ⟨rs, e?⟩
    have he : e? = none := by
      rw [hsp] at hok
      exact hok
    subst he
    obtain ⟨s1, log, hr, hlog⟩ := render_allOk_spec dd textures s0 h1 h2 hv hi rs none hsp
    rw [hr]
    exact ⟨rfl, hlog⟩
  · decide

/-- Witness for C6: the offset law applied to the concrete scenario frame. -/
theorem c6_draw_loop_offsets_witness :
    (render allOk dd1 [] initSt).1 = .ok ∧
    ((render allOk dd1 [] initSt).2.2).map stripRec = (specRun [] dd1).1 :=
  c6_draw_loop_offsets.1 dd1 [] initSt (by decide) (by decide) (by decide) (by decide) (by decide)

/-! ## Claim C7: scissor rectangles -/

/-- C7: for every Elements command, the scissor rectangle set before its draw
call subtracts the display offset from each clip-rectangle coordinate and
multiplies by the framebuffer scale (x offset/scale for left and right,
y offset/scale for top and bottom): the logged rectangles coincide with the
spec formula applied to each command, and clip rect [10,10,50,50] with
display offset [0,0] and scale [1,1] yields exactly (10,10,50,50). -/
theorem c7_scissor_rect :
    (∀ (dd : DrawData) (textures : List (Nat × Nat)) (s0 : St),
      dd.displaySize.1.isNeg = false → dd.displaySize.2.isNeg = false →
      (writeVerts dd.totalVtxCount dd.drawLists).isSome = true →
      (writeIdxs dd.totalIdxCount dd.drawLists).isSome = true →
      (specRun textures dd).2 = none →
      ((render allOk dd textures s0).2.2).map DrawRec.rect =
        ((specRun textures dd).1).map SpecRec.rect)
    ∧ (∀ (off scale : F32 × F32) (clip : ClipRect),
        scissorOf off scale clip = specScissor off scale clip)
    ∧ scissorOf (0, 0) (1, 1) ⟨10, 10, 50, 50⟩ = ⟨10, 10, 50, 50⟩ := by
  refine ⟨?_, fun _ _ _ => rfl, by decide⟩
  intro dd textures s0 h1 h2 hv hi hok
  rcases hsp : specRun textures dd with ⟨rs, e?⟩
  have he : e? = none := by
    rw [hsp] at hok
    exact hok
  subst he
  obtain ⟨s1, log, hr, hlog⟩ := render_allOk_spec dd textures s0 h1 h2 hv hi rs none hsp
  rw [hr]
  show log.map DrawRec.rect = rs.map SpecRec.rect
  rw [← hlog, List.map_map]
  rfl

/-- Witness for C7 at the concrete scenario frame. -/
theorem c7_scissor_rect_witness :
    ((render allOk dd1 [] initSt).2.2).map DrawRec.rect = ((specRun [] dd1).1).map SpecRec.rect :=
  c7_scissor_rect.1 dd1 [] initSt (by decide) (by decide) (by decide) (by decide) (by decide)

/-! ## Claim C2: font-texture resolution and the invalid-reference error -/

lemma specCmds_err (textures : List (Nat × Nat)) (off scale : F32 × F32) (nv : Nat) :
    ∀ (cmds : List DrawCmd) (bv idx : Nat) (rs : List SpecRec) (idx' e : Nat),
    specCmds textures off scale nv cmds bv idx = (rs, idx', some e) →
    e = DXGI_ERROR_INVALID_CALL := by
  intro cmds
  induction cmds with
  | nil =>
    intro bv idx rs idx' e h
    unfold specCmds at h
    cases h
  | cons c rest ih =>
    intro bv idx rs idx' e h
    cases c with
    | elements count p =>
      unfold specCmds at h
      split at h
      · rcases hs : specCmds textures off scale nv rest bv (idx + count) with ⟨rs2, idx2, e2⟩
        rw [hs] at h
        cases h
        exact ih bv (idx + count) rs2 idx' e hs
      · cases h
        rfl
    | resetRenderState =>
      unfold specCmds at h
      exact ih bv idx rs idx' e h
    | rawCallback f =>
      unfold specCmds at h
      exact ih bv idx rs idx' e h

lemma specLists_err (textures : List (Nat × Nat)) (off scale : F32 × F32) :
    ∀ (lists : List DrawList) (v0 idx0 : Nat) (rs : List SpecRec) (e : Nat),
    specLists textures off scale lists v0 idx0 = (rs, some e) →
    e = DXGI_ERROR_INVALID_CALL := by
  intro lists
  induction lists with
  | nil =>
    intro v0 idx0 rs e h
    unfold specLists at h
    cases h
  | cons dl rest ih =>
    intro v0 idx0 rs e h
    unfold specLists at h
    rcases hc : specCmds textures off scale dl.vtxBuffer.length dl.commands v0 idx0
        with ⟨rs1, idx1, e1⟩
    cases e1 with
    | some e2 =>
      simp only [hc] at h
      cases h
      exact specCmds_err textures off scale dl.vtxBuffer.length dl.commands v0 idx0
        _ _ _ hc
    | none =>
      simp only [hc] at h
      rcases hs : specLists textures off scale rest (v0 + dl.vtxBuffer.length) idx1
          with ⟨rs2, e2⟩
      simp only [hs] at h
      cases h
      exact ih _ _ _ _ hs

lemma specRun_err (textures : List (Nat × Nat)) (dd : DrawData) (rs : List SpecRec) (e : Nat)
    (h : specRun textures dd = (rs, some e)) : e = DXGI_ERROR_INVALID_CALL :=
  specLists_err textures dd.displayPos dd.framebufferScale dd.drawLists 0 0 rs e h

lemma stepDev_texture0 (c : DevCall) (d : DeviceState)
    (hc : ∀ t, c ≠ DevCall.setTexture t) : (stepDev c d).texture0 = d.texture0 := by
  cases c with
  | setTexture t => exact absurd rfl (hc t)
  | _ => rfl

lemma callDev_texture0 (o : Oracle) (c : DevCall) (s : St)
    (hc : ∀ t, c ≠ DevCall.setTexture t) :
    ((callDev o c s).2).dev.texture0 = s.dev.texture0 := by
  unfold callDev
  split
  · rfl
  · exact stepDev_texture0 c _ hc

lemma runCalls_texture0 (o : Oracle) :
    ∀ (cs : List DevCall) (s : St), (∀ c ∈ cs, ∀ t, c ≠ DevCall.setTexture t) →
    ((runCalls o cs s).2).dev.texture0 = s.dev.texture0 := by
  intro cs
  induction cs with
  | nil => intro s _; rfl
  | cons c rest ih =>
    intro s hcs
    unfold runCalls
    rcases hc : callDev o c s with ⟨r, s1⟩
    have ht : s1.dev.texture0 = s.dev.texture0 := by
      have h0 := callDev_texture0 o c s (hcs c (by simp))
      rw [hc] at h0
      exact h0
    cases r with
    | some e => exact ht
    | none =>
      rw [ih s1 (fun c' hc' t => hcs c' (by simp [hc']) t)]
      exact ht

lemma setRenderStateCalls_no_setTexture (dd : DrawData) :
    ∀ c ∈ setRenderStateCalls dd, ∀ t, c ≠ DevCall.setTexture t := by
  intro c hc
  fin_cases hc <;> intro t h <;> cases h

lemma callDev_dev_of_fail (o : Oracle) (c : DevCall) (s : St) (e : Nat) (s' : St)
    (h : callDev o c s = (some e, s')) : s'.dev = s.dev := by
  unfold callDev at h
  split at h
  · cases h
    rfl
  · cases h

lemma callDev_setTexture_texture0 (o : Oracle) (t : Tex) (s s' : St)
    (h : callDev o (.setTexture t) s = (none, s')) : s'.dev.texture0 = some t := by
  unfold callDev at h
  split at h
  · cases h
  · cases h
    rfl

lemma bindTexture_fontInv (o : Oracle) (textures : List (Nat × Nat)) (p : DrawCmdParams)
    (ls ls' : LoopSt) (r : Option Nat) (h : bindTexture o textures p ls = (r, ls'))
    (hinv : ls.lastTex = FONT_TEX_ID → ls.st.dev.texture0 = some Tex.font) :
    (ls'.lastTex = FONT_TEX_ID → ls'.st.dev.texture0 = some Tex.font) ∧
    ls'.log = ls.log ∧
    (r = none → ls'.lastTex = p.textureId) := by
  unfold bindTexture at h
  split at h
  next heq =>
    cases h
    exact ⟨hinv, rfl, fun _ => heq.symm⟩
  next heq =>
    split at h
    next hres =>
      cases h
      exact ⟨hinv, rfl, fun hx => nomatch hx⟩
    next t hres =>
      split at h
      next e1 s1 hc =>
        cases h
        refine ⟨fun hf => ?_, rfl, fun hx => nomatch hx⟩
        have hd : s1.dev = ls.st.dev := callDev_dev_of_fail o _ ls.st _ _ hc
        show s1.dev.texture0 = some Tex.font
        rw [hd]
        exact hinv hf
      next s1 hc =>
        cases h
        refine ⟨fun hf => ?_, rfl, fun _ => rfl⟩
        have hf2 : p.textureId = FONT_TEX_ID := hf
        have ht : t = Tex.font := by
          rw [if_pos hf2] at hres
          cases hres
          rfl
        show s1.dev.texture0 = some Tex.font
        rw [← ht]
        exact callDev_setTexture_texture0 o t ls.st s1 hc

lemma elementsStep_fontInv (o : Oracle) (dd : DrawData) (textures : List (Nat × Nat))
    (dl : DrawList) (count : Nat) (p : DrawCmdParams) (ls ls' : LoopSt) (r : Option Nat)
    (h : elementsStep o dd textures dl count p ls = (r, ls'))
    (hinv : ls.lastTex = FONT_TEX_ID → ls.st.dev.texture0 = some Tex.font)
    (hlog : ∀ rec ∈ ls.log, rec.texId = FONT_TEX_ID → rec.bound = some Tex.font) :
    (ls'.lastTex = FONT_TEX_ID → ls'.st.dev.texture0 = some Tex.font) ∧
    (∀ rec ∈ ls'.log, rec.texId = FONT_TEX_ID → rec.bound = some Tex.font) := by
  unfold elementsStep at h
  split at h
  next e1 ls1 hb =>
    cases h
    obtain ⟨hi1, hl1, -⟩ := bindTexture_fontInv o textures p ls _ _ hb hinv
    exact ⟨hi1, by rw [hl1]; exact hlog⟩
  next ls1 hb =>
    obtain ⟨hi1, hl1, hlast1⟩ := bindTexture_fontInv o textures p ls _ _ hb hinv
    have hlast1' := hlast1 rfl
    split at h
    next e1 s1 hc =>
      cases h
      have hd : s1.dev = ls1.st.dev := callDev_dev_of_fail o _ ls1.st _ _ hc
      refine ⟨fun hf => ?_, by rw [hl1]; exact hlog⟩
      show s1.dev.texture0 = some Tex.font
      rw [hd]
      exact hi1 hf
    next s1 hc =>
      have ht1 : s1.dev.texture0 = ls1.st.dev.texture0 := by
        have h0 := callDev_texture0 o
          (.setScissorRect (scissorOf dd.displayPos dd.framebufferScale p.clipRect))
          ls1.st (fun t h => by cases h)
        rw [hc] at h0
        exact h0
      split at h
      next e1 s2 hc2 =>
        cases h
        have hd2 : s2.dev = s1.dev := callDev_dev_of_fail o _ s1 _ _ hc2
        refine ⟨fun hf => ?_, by rw [hl1]; exact hlog⟩
        show s2.dev.texture0 = some Tex.font
        rw [hd2, ht1]
        exact hi1 hf
      next s2 hc2 =>
        cases h
        have ht2 : s2.dev.texture0 = s1.dev.texture0 := by
          have h0 := callDev_texture0 o
            (.drawIndexedPrimitive D3DPT_TRIANGLELIST ls1.vertexOffset 0
              dl.vtxBuffer.length ls1.indexOffset (count / 3))
            s1 (fun t h => by cases h)
          rw [hc2] at h0
          exact h0
        have hbound : s2.dev.texture0 = (if p.textureId = FONT_TEX_ID
            then some Tex.font else s2.dev.texture0) := by
          by_cases hf : p.textureId = FONT_TEX_ID
          · rw [if_pos hf, ht2, ht1]
            exact hi1 (by rw [hlast1']; exact hf)
          · rw [if_neg hf]
        refine ⟨fun hf => ?_, ?_⟩
        · show s2.dev.texture0 = some Tex.font
          rw [ht2, ht1]
          exact hi1 hf
        · intro rec hrec
          rw [hl1] at hrec
          rcases List.mem_append.mp hrec with hmem | hmem
          · exact hlog rec hmem
          · rw [List.mem_singleton.mp hmem]
            intro hf
            show s2.dev.texture0 = some Tex.font
            rw [ht2, ht1]
            exact hi1 (by rw [hlast1']; exact hf)

lemma runCmds_fontInv (o : Oracle) (dd : DrawData) (textures : List (Nat × Nat))
    (dl : DrawList) :
    ∀ (cmds : List DrawCmd) (ls : LoopSt) (r : Option Nat) (ls' : LoopSt),
    runCmds o dd textures dl cmds ls = (r, ls') →
    (∀ c ∈ cmds, c.isRawCallback = false) →
    (ls.lastTex = FONT_TEX_ID → ls.st.dev.texture0 = some Tex.font) →
    (∀ rec ∈ ls.log, rec.texId = FONT_TEX_ID → rec.bound = some Tex.font) →
    (ls'.lastTex = FONT_TEX_ID → ls'.st.dev.texture0 = some Tex.font) ∧
    (∀ rec ∈ ls'.log, rec.texId = FONT_TEX_ID → rec.bound = some Tex.font) := by
  intro cmds
  induction cmds with
  | nil =>
    intro ls r ls' h _ hinv hlog
    cases h
    exact ⟨hinv, hlog⟩
  | cons c rest ih =>
    intro ls r ls' h hnc hinv hlog
    cases c with
    | elements count p =>
      unfold runCmds at h
      split at h
      next e1 ls1 he =>
        cases h
        exact elementsStep_fontInv o dd textures dl count p ls _ _ he hinv hlog
      next ls1 he =>
        obtain ⟨hinv1, hlog1⟩ := elementsStep_fontInv o dd textures dl count p ls _ _ he hinv hlog
        exact ih ls1 r ls' h (fun c hc => hnc c (by simp [hc])) hinv1 hlog1
    | resetRenderState =>
      unfold runCmds at h
      split at h
      next e1 s1 hr =>
        cases h
        have ht : s1.dev.texture0 = ls.st.dev.texture0 := by
          have h0 := runCalls_texture0 o (setRenderStateCalls dd) ls.st
            (setRenderStateCalls_no_setTexture dd)
          rw [hr] at h0
          exact h0
        exact ⟨fun hf => by rw [show ({ ls with st := s1 } : LoopSt).st.dev.texture0 =
          s1.dev.texture0 from rfl, ht]; exact hinv hf, hlog⟩
      next s1 hr =>
        have ht : s1.dev.texture0 = ls.st.dev.texture0 := by
          have h0 := runCalls_texture0 o (setRenderStateCalls dd) ls.st
            (setRenderStateCalls_no_setTexture dd)
          rw [hr] at h0
          exact h0
        exact ih _ r ls' h (fun c hc => hnc c (by simp [hc]))
          (fun hf => by rw [show ({ ls with st := s1 } : LoopSt).st.dev.texture0 =
            s1.dev.texture0 from rfl, ht]; exact hinv hf) hlog
    | rawCallback f =>
      exact absurd (hnc (DrawCmd.rawCallback f) (by simp)) (by simp [DrawCmd.isRawCallback])

lemma runLists_fontInv (o : Oracle) (dd : DrawData) (textures : List (Nat × Nat)) :
    ∀ (lists : List DrawList) (ls : LoopSt) (r : Option Nat) (ls' : LoopSt),
    runLists o dd textures lists ls = (r, ls') →
    (∀ dl ∈ lists, ∀ c ∈ dl.commands, c.isRawCallback = false) →
    (ls.lastTex = FONT_TEX_ID → ls.st.dev.texture0 = some Tex.font) →
    (∀ rec ∈ ls.log, rec.texId = FONT_TEX_ID → rec.bound = some Tex.font) →
    (∀ rec ∈ ls'.log, rec.texId = FONT_TEX_ID → rec.bound = some Tex.font) := by
  intro lists
  induction lists with
  | nil =>
    intro ls r ls' h _ _ hlog
    cases h
    exact hlog
  | cons dl rest ih =>
    intro ls r ls' h hnc hinv hlog
    unfold runLists at h
    split at h
    next e1 ls1 hc =>
      cases h
      exact (runCmds_fontInv o dd textures dl dl.commands ls _ _ hc
        (hnc dl (by simp)) hinv hlog).2
    next ls1 hc =>
      obtain ⟨hinv1, hlog1⟩ := runCmds_fontInv o dd textures dl dl.commands ls _ _ hc
        (hnc dl (by simp)) hinv hlog
      exact ih _ r ls' h (fun dl' hdl' => hnc dl' (by simp [hdl'])) hinv1 hlog1

lemma renderImpl_fontInv (o : Oracle) (dd : DrawData) (textures : List (Nat × Nat)) (s : St)
    (out : Outcome) (s' : St) (log : List DrawRec)
    (h : renderImpl o dd textures s = (out, s', log))
    (hnc : ∀ dl ∈ dd.drawLists, ∀ c ∈ dl.commands, c.isRawCallback = false) :
    ∀ rec ∈ log, rec.texId = FONT_TEX_ID → rec.bound = some Tex.font := by
  unfold renderImpl at h
  split at h
  next e1 s1 hc =>
    cases h
    intro rec hrec
    cases hrec
  next s1 hc =>
    have hbind : s1.dev.texture0 = some Tex.font :=
      callDev_setTexture_texture0 o .font s s1 hc
    split at h
    next e1 ls1 hr =>
      cases h
      exact runLists_fontInv o dd textures dd.drawLists _ _ _ hr hnc
        (fun _ => hbind) (fun rec hrec => by cases hrec)
    next ls1 hr =>
      cases h
      exact runLists_fontInv o dd textures dd.drawLists _ _ _ hr hnc
        (fun _ => hbind) (fun rec hrec => by cases hrec)

lemma render_log_fontInv (o : Oracle) (dd : DrawData) (textures : List (Nat × Nat)) (s0 : St)
    (hnc : noRawCallback dd = true) :
    ∀ rec ∈ (render o dd textures s0).2.2, rec.texId = FONT_TEX_ID →
      rec.bound = some Tex.font := by
  have hnc' : ∀ dl ∈ dd.drawLists, ∀ c ∈ dl.commands, c.isRawCallback = false := by
    intro dl hdl c hc
    have h1 := (List.all_eq_true.mp hnc) dl hdl
    have h2 := (List.all_eq_true.mp h1) c hc
    simp at h2
    simp [h2]
  rcases hr : render o dd textures s0 with ⟨out, s1, log⟩
  show ∀ rec ∈ log, _
  unfold render at hr
  split at hr
  next =>
    cases hr
    intro rec hrec
    cases hrec
  next =>
    split at hr
    next =>
      cases hr
      intro rec hrec
      cases hrec
    next sg hg =>
      split at hr
      next =>
        cases hr
        intro rec hrec
        cases hrec
      next sc hc =>
        split at hr
        next outb s3 logb hb =>
          have hbody : ∀ rec ∈ logb, rec.texId = FONT_TEX_ID → rec.bound = some Tex.font := by
            unfold renderBody at hb
            split at hb
            next =>
              cases hb
              intro rec hrec
              cases hrec
            next ss hss =>
              split at hb
              next sw hww =>
                exact renderImpl_fontInv o dd textures sw outb s3 logb hb hnc'
              next =>
                cases hb
                intro rec hrec
                cases hrec
          split at hr
          next =>
            cases hr
            exact hbody
          next =>
            split at hr
            next =>
              cases hr
              exact hbody
            next =>
              cases hr
              exact hbody

/-- Counterexample to C2 as stated: a raw callback rebinds stage 0 to a
caller texture while the renderer's last-bound id still equals the font id,
so the following Elements command with the font id skips rebinding and draws
with the callback's texture bound — not the font texture. -/
theorem c2_counterexample_callback_breaks_font_binding :
    ((render allOk dd2 [] initSt).2.2).map (fun r => (r.texId, r.bound)) =
      [(FONT_TEX_ID, some (Tex.user 99))] ∧
    some (Tex.user 99) ≠ some Tex.font := by
  exact ⟨by decide, by decide⟩

/-- C2 (amended): (a) for frames without raw-callback commands, a draw
command whose texture id equals the reserved font identifier always draws
with the font texture bound — never a registry entry — regardless of
registry contents; (b) with a failure-free device, a frame containing an
Elements command whose id is neither the font id nor a registry key makes
`render` return `DXGI_ERROR_INVALID_CALL`, and the draw calls issued are
exactly those for the commands before that one (none for it or any
subsequent command). -/
theorem c2_amended_texture_resolution :
    (∀ (o : Oracle) (dd : DrawData) (textures : List (Nat × Nat)) (s0 : St),
      noRawCallback dd = true →
      ∀ rec ∈ (render o dd textures s0).2.2, rec.texId = FONT_TEX_ID →
        rec.bound = some Tex.font)
    ∧ (∀ (dd : DrawData) (textures : List (Nat × Nat)) (s0 : St) (e : Nat),
      dd.displaySize.1.isNeg = false → dd.displaySize.2.isNeg = false →
      (writeVerts dd.totalVtxCount dd.drawLists).isSome = true →
      (writeIdxs dd.totalIdxCount dd.drawLists).isSome = true →
      (specRun textures dd).2 = some e →
      e = DXGI_ERROR_INVALID_CALL ∧
      (render allOk dd textures s0).1 = .err e ∧
      ((render allOk dd textures s0).2.2).map stripRec = (specRun textures dd).1) := by
  constructor
  · exact render_log_fontInv
  · intro dd textures s0 e h1 h2 hv hi hok
    rcases hsp : specRun textures dd with ⟨rs, e?⟩
    have he : e? = some e := by
      rw [hsp] at hok
      exact hok
    subst he
    have hdx := specRun_err textures dd rs e hsp
    obtain ⟨s1, log, hr, hlog⟩ := render_allOk_spec dd textures s0 h1 h2 hv hi rs (some e) hsp
    rw [hr]
    exact ⟨hdx, rfl, hlog⟩

/-- Witness for the amended C2 at a concrete frame: an Elements command with
an unknown id aborts with the invalid-reference error after the draws before
it. -/
theorem c2_amended_texture_resolution_witness :
    DXGI_ERROR_INVALID_CALL = DXGI_ERROR_INVALID_CALL ∧
    (render allOk ddBad [] initSt).1 = .err DXGI_ERROR_INVALID_CALL ∧
    ((render allOk ddBad [] initSt).2.2).map stripRec = (specRun [] ddBad).1 :=
  c2_amended_texture_resolution.2 ddBad [] initSt DXGI_ERROR_INVALID_CALL
    (by decide) (by decide) (by decide) (by decide) (by decide)

/-! ## Claim C3: buffer growth, margins, monotonicity, failed allocation -/

/-- The renderer's buffer bookkeeping is unchanged: same capacities, same
allocation generations (a generation bumps exactly when a buffer is replaced
by a fresh allocation, so equal generations mean the old buffers are still in
place). -/
def capsEq (s' s : St) : Prop :=
  s'.vbCap = s.vbCap ∧ s'.ibCap = s.ibCap ∧ s'.vbGen = s.vbGen ∧ s'.ibGen = s.ibGen

lemma capsEq_refl (s : St) : capsEq s s := ⟨rfl, rfl, rfl, rfl⟩

lemma capsEq_trans {s3 s2 s1 : St} (h2 : capsEq s3 s2) (h1 : capsEq s2 s1) :
    capsEq s3 s1 :=
  ⟨h2.1.trans h1.1, h2.2.1.trans h1.2.1, h2.2.2.1.trans h1.2.2.1, h2.2.2.2.trans h1.2.2.2⟩

lemma callDev_caps (o : Oracle) (c : DevCall) (s : St) (r : Option Nat) (s' : St)
    (h : callDev o c s = (r, s')) : capsEq s' s := by
  unfold callDev at h
  split at h <;> cases h <;> exact ⟨rfl, rfl, rfl, rfl⟩

lemma runCalls_caps (o : Oracle) :
    ∀ (cs : List DevCall) (s : St) (r : Option Nat) (s' : St),
    runCalls o cs s = (r, s') → capsEq s' s := by
  intro cs
  induction cs with
  | nil =>
    intro s r s' h
    cases h
    exact capsEq_refl s
  | cons c rest ih =>
    intro s r s' h
    unfold runCalls at h
    split at h
    next e1 s1 hc =>
      cases h
      exact callDev_caps o _ s _ _ hc
    next s1 hc =>
      exact capsEq_trans (ih s1 r s' h) (callDev_caps o _ s _ _ hc)

lemma lockBuffers_caps (o : Oracle) (vn ic : Nat) (s : St) (r : Option Nat) (s' : St)
    (h : lockBuffers o vn ic s = (r, s')) : capsEq s' s := by
  unfold lockBuffers at h
  split at h
  next e1 s1 hc1 =>
    cases h
    exact callDev_caps o _ s _ _ hc1
  next s1 hc1 =>
    have h1 := callDev_caps o _ s _ _ hc1
    split at h
    next s2 hc2 =>
      cases h
      exact capsEq_trans (callDev_caps o _ s1 _ _ hc2) h1
    next e1 s2 hc2 =>
      have h2 := callDev_caps o _ s1 _ _ hc2
      split at h
      next e2 s3 hc3 =>
        cases h
        exact capsEq_trans (capsEq_trans (callDev_caps o _ s2 _ _ hc3) h2) h1
      next s3 hc3 =>
        cases h
        exact capsEq_trans (capsEq_trans (callDev_caps o _ s2 _ _ hc3) h2) h1

lemma unlockAndBind_caps (o : Oracle) (s : St) (out : Outcome) (s' : St)
    (h : unlockAndBind o s = (out, s')) : capsEq s' s := by
  unfold unlockAndBind at h
  split at h
  next e1 s1 hc1 =>
    cases h
    exact callDev_caps o _ s _ _ hc1
  next s1 hc1 =>
    have h1 := callDev_caps o _ s _ _ hc1
    split at h
    next e2 s2 hc2 =>
      cases h
      exact capsEq_trans (callDev_caps o _ s1 _ _ hc2) h1
    next s2 hc2 =>
      have h2 := capsEq_trans (callDev_caps o _ s1 _ _ hc2) h1
      split at h
      next e3 s3 hc3 =>
        cases h
        exact capsEq_trans (callDev_caps o _ s2 _ _ hc3) h2
      next s3 hc3 =>
        have h3 := capsEq_trans (callDev_caps o _ s2 _ _ hc3) h2
        split at h
        next e4 s4 hc4 =>
          cases h
          exact capsEq_trans (callDev_caps o _ s3 _ _ hc4) h3
        next s4 hc4 =>
          have h4 := capsEq_trans (callDev_caps o _ s3 _ _ hc4) h3
          split at h
          next e5 s5 hc5 =>
            cases h
            exact capsEq_trans (callDev_caps o _ s4 _ _ hc5) h4
          next s5 hc5 =>
            cases h
            exact capsEq_trans (callDev_caps o _ s4 _ _ hc5) h4

lemma writeBuffers_caps (o : Oracle) (dd : DrawData) (s : St) (out : Outcome) (s' : St)
    (h : writeBuffers o dd s = (out, s')) : capsEq s' s := by
  unfold writeBuffers at h
  split at h
  next e1 s1 hl =>
    cases h
    exact lockBuffers_caps o _ _ s _ _ hl
  next s1 hl =>
    have h1 := lockBuffers_caps o _ _ s _ _ hl
    split at h
    next =>
      cases h
      exact h1
    next =>
      split at h
      next =>
        cases h
        exact h1
      next =>
        exact capsEq_trans (unlockAndBind_caps o s1 out s' h) h1

lemma bindTexture_caps (o : Oracle) (textures : List (Nat × Nat)) (p : DrawCmdParams)
    (ls : LoopSt) (r : Option Nat) (ls' : LoopSt)
    (h : bindTexture o textures p ls = (r, ls')) : capsEq ls'.st ls.st := by
  unfold bindTexture at h
  split at h
  next =>
    cases h
    exact capsEq_refl ls.st
  next =>
    split at h
    next =>
      cases h
      exact capsEq_refl ls.st
    next t hres =>
      split at h
      next e1 s1 hc =>
        cases h
        exact callDev_caps o _ ls.st _ _ hc
      next s1 hc =>
        cases h
        exact callDev_caps o _ ls.st _ _ hc

lemma elementsStep_caps (o : Oracle) (dd : DrawData) (textures : List (Nat × Nat))
    (dl : DrawList) (count : Nat) (p : DrawCmdParams) (ls : LoopSt) (r : Option Nat)
    (ls' : LoopSt) (h : elementsStep o dd textures dl count p ls = (r, ls')) :
    capsEq ls'.st ls.st := by
  unfold elementsStep at h
  split at h
  next e1 ls1 hb =>
    cases h
    exact bindTexture_caps o textures p ls _ _ hb
  next ls1 hb =>
    have h1 := bindTexture_caps o textures p ls _ _ hb
    split at h
    next e1 s1 hc =>
      cases h
      exact capsEq_trans (callDev_caps o _ ls1.st _ _ hc) h1
    next s1 hc =>
      have h2 := capsEq_trans (callDev_caps o _ ls1.st _ _ hc) h1
      split at h
      next e1 s2 hc2 =>
        cases h
        exact capsEq_trans (callDev_caps o _ s1 _ _ hc2) h2
      next s2 hc2 =>
        cases h
        exact capsEq_trans (callDev_caps o _ s1 _ _ hc2) h2

lemma runCmds_caps (o : Oracle) (dd : DrawData) (textures : List (Nat × Nat))
    (dl : DrawList) :
    ∀ (cmds : List DrawCmd) (ls : LoopSt) (r : Option Nat) (ls' : LoopSt),
    runCmds o dd textures dl cmds ls = (r, ls') → capsEq ls'.st ls.st := by
  intro cmds
  induction cmds with
  | nil =>
    intro ls r ls' h
    cases h
    exact capsEq_refl ls.st
  | cons c rest ih =>
    intro ls r ls' h
    cases c with
    | elements count p =>
      unfold runCmds at h
      split at h
      next e1 ls1 he =>
        cases h
        exact elementsStep_caps o dd textures dl count p ls _ _ he
      next ls1 he =>
        exact capsEq_trans (ih ls1 r ls' h) (elementsStep_caps o dd textures dl count p ls _ _ he)
    | resetRenderState =>
      unfold runCmds at h
      split at h
      next e1 s1 hr =>
        cases h
        exact runCalls_caps o _ ls.st _ _ hr
      next s1 hr =>
        exact capsEq_trans (ih _ r ls' h) (runCalls_caps o _ ls.st _ _ hr)
    | rawCallback f =>
      unfold runCmds at h
      have hres := ih _ r ls' h
      exact hres

lemma runLists_caps (o : Oracle) (dd : DrawData) (textures : List (Nat × Nat)) :
    ∀ (lists : List DrawList) (ls : LoopSt) (r : Option Nat) (ls' : LoopSt),
    runLists o dd textures lists ls = (r, ls') → capsEq ls'.st ls.st := by
  intro lists
  induction lists with
  | nil =>
    intro ls r ls' h
    cases h
    exact capsEq_refl ls.st
  | cons dl rest ih =>
    intro ls r ls' h
    unfold runLists at h
    split at h
    next e1 ls1 hc =>
      cases h
      exact runCmds_caps o dd textures dl dl.commands ls _ _ hc
    next ls1 hc =>
      have h1 := runCmds_caps o dd textures dl dl.commands ls _ _ hc
      have h2 := ih _ r ls' h
      exact capsEq_trans h2 h1

lemma renderImpl_caps (o : Oracle) (dd : DrawData) (textures : List (Nat × Nat)) (s : St)
    (out : Outcome) (s' : St) (log : List DrawRec)
    (h : renderImpl o dd textures s = (out, s', log)) : capsEq s' s := by
  unfold renderImpl at h
  split at h
  next e1 s1 hc =>
    cases h
    exact callDev_caps o _ s _ _ hc
  next s1 hc =>
    have h1 := callDev_caps o _ s _ _ hc
    split at h
    next e1 ls1 hr =>
      cases h
      exact capsEq_trans (runLists_caps o dd textures dd.drawLists _ _ _ hr) h1
    next ls1 hr =>
      cases h
      exact capsEq_trans (runLists_caps o dd textures dd.drawLists _ _ _ hr) h1

lemma renderBody_caps (o : Oracle) (dd : DrawData) (textures : List (Nat × Nat)) (s : St)
    (out : Outcome) (s' : St) (log : List DrawRec)
    (h : renderBody o dd textures s = (out, s', log)) : capsEq s' s := by
  unfold renderBody at h
  split at h
  next e1 s1 hs =>
    cases h
    exact runCalls_caps o _ s _ _ hs
  next s1 hs =>
    have h1 := runCalls_caps o _ s _ _ hs
    split at h
    next =>
      rename_i s2 hw
      have h2 := writeBuffers_caps o dd s1 _ _ hw
      exact capsEq_trans (renderImpl_caps o dd textures s2 out s' log h) (capsEq_trans h2 h1)
    next =>
      rename_i hw
      cases h
      have h2 := writeBuffers_caps o dd s1 _ _ hw
      exact capsEq_trans h2 h1

lemma createVertexBuffer_cases (o : Oracle) (n : Nat) (s : St) (r : Option Nat) (s' : St)
    (h : createVertexBuffer o n s = (r, s')) :
    (∀ e, r = some e → capsEq s' s) ∧
    (r = none → s'.vbCap = n + VERTEX_BUF_ADD_CAPACITY ∧ s'.vbGen = s.vbGen + 1 ∧
      s'.ibCap = s.ibCap ∧ s'.ibGen = s.ibGen) := by
  unfold createVertexBuffer at h
  split at h
  next e1 s1 hc =>
    cases h
    refine ⟨fun e he => callDev_caps o _ s _ _ hc, fun hn => ?_⟩
    cases hn
  next s1 hc =>
    cases h
    have h1 := callDev_caps o _ s _ _ hc
    refine ⟨fun e he => ?_, fun _ => ⟨rfl, congrArg (· + 1) h1.2.2.1, h1.2.1, h1.2.2.2⟩⟩
    cases he

lemma createIndexBuffer_cases (o : Oracle) (n : Nat) (s : St) (r : Option Nat) (s' : St)
    (h : createIndexBuffer o n s = (r, s')) :
    (∀ e, r = some e → capsEq s' s) ∧
    (r = none → s'.ibCap = n + INDEX_BUF_ADD_CAPACITY ∧ s'.ibGen = s.ibGen + 1 ∧
      s'.vbCap = s.vbCap ∧ s'.vbGen = s.vbGen) := by
  unfold createIndexBuffer at h
  split at h
  next e1 s1 hc =>
    cases h
    refine ⟨fun e he => callDev_caps o _ s _ _ hc, fun hn => ?_⟩
    cases hn
  next s1 hc =>
    cases h
    have h1 := callDev_caps o _ s _ _ hc
    refine ⟨fun e he => ?_, fun _ => ⟨rfl, congrArg (· + 1) h1.2.2.2, h1.1, h1.2.2.1⟩⟩
    cases he

/-- The growth/no-growth case split of `growBuffers`, per buffer: each
capacity-generation pair either is untouched, or the frame's total exceeded
the old capacity and the pair was replaced with capacity equal to the total
plus the fixed margin. -/
lemma growBuffers_cases (o : Oracle) (dd : DrawData) (s : St) (r : Option Nat) (s' : St)
    (h : growBuffers o dd s = (r, s')) :
    (s'.vbCap = s.vbCap ∧ s'.vbGen = s.vbGen ∨
     s.vbCap < dd.totalVtxCount ∧
       s'.vbCap = dd.totalVtxCount + VERTEX_BUF_ADD_CAPACITY ∧ s'.vbGen = s.vbGen + 1) ∧
    (s'.ibCap = s.ibCap ∧ s'.ibGen = s.ibGen ∨
     s.ibCap < dd.totalIdxCount ∧
       s'.ibCap = dd.totalIdxCount + INDEX_BUF_ADD_CAPACITY ∧ s'.ibGen = s.ibGen + 1) := by
  unfold growBuffers at h
  split at h
  next e1 s1 hv =>
    cases h
    split at hv
    next hlt =>
      have hc := (createVertexBuffer_cases o _ s _ _ hv).1 e1 rfl
      exact ⟨Or.inl ⟨hc.1, hc.2.2.1⟩, Or.inl ⟨hc.2.1, hc.2.2.2⟩⟩
    next hlt =>
      cases hv
  next s1 hv =>
    have hvb : (s1.vbCap = s.vbCap ∧ s1.vbGen = s.vbGen ∨
        s.vbCap < dd.totalVtxCount ∧
          s1.vbCap = dd.totalVtxCount + VERTEX_BUF_ADD_CAPACITY ∧ s1.vbGen = s.vbGen + 1) ∧
        s1.ibCap = s.ibCap ∧ s1.ibGen = s.ibGen := by
      split at hv
      next hlt =>
        have hc := (createVertexBuffer_cases o _ s _ _ hv).2 rfl
        exact ⟨Or.inr ⟨hlt, hc.1, hc.2.1⟩, hc.2.2.1, hc.2.2.2⟩
      next hlt =>
        cases hv
        exact ⟨Or.inl ⟨rfl, rfl⟩, rfl, rfl⟩
    split at h
    next hlt =>
      have hib := createIndexBuffer_cases o _ s1 _ _ h
      cases r with
      | some e =>
        have hc := hib.1 e rfl
        refine ⟨?_, Or.inl ⟨hc.2.1.trans hvb.2.1, hc.2.2.2.trans hvb.2.2⟩⟩
        rcases hvb.1 with ⟨h1, h2⟩ | ⟨h1, h2, h3⟩
        · exact Or.inl ⟨hc.1.trans h1, hc.2.2.1.trans h2⟩
        · exact Or.inr ⟨h1, hc.1.trans h2, hc.2.2.1.trans h3⟩
      | none =>
        have hc := hib.2 rfl
        refine ⟨?_, Or.inr ⟨hvb.2.1 ▸ hlt, hc.1,
          hc.2.1.trans (congrArg (· + 1) hvb.2.2)⟩⟩
        rcases hvb.1 with ⟨h1, h2⟩ | ⟨h1, h2, h3⟩
        · exact Or.inl ⟨hc.2.2.1.trans h1, hc.2.2.2.trans h2⟩
        · exact Or.inr ⟨h1, hc.2.2.1.trans h2, hc.2.2.2.trans h3⟩
    next hlt =>
      cases h
      exact ⟨hvb.1, Or.inl ⟨hvb.2.1, hvb.2.2⟩⟩

lemma growBuffers_within (o : Oracle) (dd : DrawData) (s : St)
    (hv : dd.totalVtxCount ≤ s.vbCap) (hi : dd.totalIdxCount ≤ s.ibCap) :
    growBuffers o dd s = (none, s) := by
  unfold growBuffers
  rw [if_neg (Nat.not_lt.mpr hv)]
  exact if_neg (Nat.not_lt.mpr hi)

/-- C3: buffer growth discipline of `render`.  (1) When the frame's totals
fit the current capacities, the sizing step is the identity: no device call
and no reallocation at all.  (2) Across a whole `render` call, each buffer
pair is either untouched (same capacity, same allocation generation) or was
reallocated exactly once because the frame's total exceeded the old capacity,
with new capacity equal to the total plus the fixed margin (5000 for
vertices, 10000 for indices); consequently capacities never decrease.
(3)/(4) A failed allocation call leaves capacities and generations — hence
the old buffer pair — fully in place. -/
theorem c3_buffer_growth (o : Oracle) (dd : DrawData) (textures : List (Nat × Nat))
    (s0 : St) :
    (dd.totalVtxCount ≤ s0.vbCap → dd.totalIdxCount ≤ s0.ibCap →
      growBuffers o dd s0 = (none, s0)) ∧
    (((render o dd textures s0).2.1.vbCap = s0.vbCap ∧
        (render o dd textures s0).2.1.vbGen = s0.vbGen ∨
      s0.vbCap < dd.totalVtxCount ∧
        (render o dd textures s0).2.1.vbCap = dd.totalVtxCount + VERTEX_BUF_ADD_CAPACITY ∧
        (render o dd textures s0).2.1.vbGen = s0.vbGen + 1) ∧
     ((render o dd textures s0).2.1.ibCap = s0.ibCap ∧
        (render o dd textures s0).2.1.ibGen = s0.ibGen ∨
      s0.ibCap < dd.totalIdxCount ∧
        (render o dd textures s0).2.1.ibCap = dd.totalIdxCount + INDEX_BUF_ADD_CAPACITY ∧
        (render o dd textures s0).2.1.ibGen = s0.ibGen + 1) ∧
     s0.vbCap ≤ (render o dd textures s0).2.1.vbCap ∧
     s0.ibCap ≤ (render o dd textures s0).2.1.ibCap) ∧
    (∀ e s', createVertexBuffer o dd.totalVtxCount s0 = (some e, s') → capsEq s' s0) ∧
    (∀ e s', createIndexBuffer o dd.totalIdxCount s0 = (some e, s') → capsEq s' s0) := by
  refine ⟨growBuffers_within o dd s0, ?_,
    fun e s' h => (createVertexBuffer_cases o _ s0 _ _ h).1 e rfl,
    fun e s' h => (createIndexBuffer_cases o _ s0 _ _ h).1 e rfl⟩
  rcases hr : render o dd textures s0 with ⟨out, s1, log⟩
  have hcases : (s1.vbCap = s0.vbCap ∧ s1.vbGen = s0.vbGen ∨
      s0.vbCap < dd.totalVtxCount ∧
        s1.vbCap = dd.totalVtxCount + VERTEX_BUF_ADD_CAPACITY ∧ s1.vbGen = s0.vbGen + 1) ∧
      (s1.ibCap = s0.ibCap ∧ s1.ibGen = s0.ibGen ∨
      s0.ibCap < dd.totalIdxCount ∧
        s1.ibCap = dd.totalIdxCount + INDEX_BUF_ADD_CAPACITY ∧ s1.ibGen = s0.ibGen + 1) := by
    unfold render at hr
    split at hr
    next =>
      cases hr
      exact ⟨Or.inl ⟨rfl, rfl⟩, Or.inl ⟨rfl, rfl⟩⟩
    next =>
      split at hr
      next e1 sg hg =>
        cases hr
        exact growBuffers_cases o dd s0 _ _ hg
      next sg hg =>
        have hgc := growBuffers_cases o dd s0 _ _ hg
        have hfin : capsEq s1 sg := by
          split at hr
          next e1 sc hc =>
            cases hr
            exact callDev_caps o _ sg _ _ hc
          next sc hc =>
            have h1 := callDev_caps o _ sg _ _ hc
            split at hr
            next outb s3 logb hb =>
              have h2 := capsEq_trans (renderBody_caps o dd textures sc _ _ _ hb) h1
              split at hr
              next s4 ha =>
                cases hr
                have h4 := callDev_caps o _ s3 _ _ ha
                exact capsEq_trans h4 h2
              next e2 s4 ha =>
                have h4 := callDev_caps o _ s3 _ _ ha
                have h3 := capsEq_trans h4 h2
                split at hr
                next =>
                  cases hr
                  exact h3
                next =>
                  cases hr
                  exact h3
        rcases hfin with ⟨f1, f2, f3, f4⟩
        rw [f1, f2, f3, f4]
        exact hgc
  refine ⟨hcases.1, hcases.2, ?_, ?_⟩
  · rcases hcases.1 with ⟨h1, -⟩ | ⟨h1, h2, -⟩
    · exact Nat.le_of_eq h1.symm
    · rw [h2]
      omega
  · rcases hcases.2 with ⟨h1, -⟩ | ⟨h1, h2, -⟩
    · exact Nat.le_of_eq h1.symm
    · rw [h2]
      omega

/-- The state after the failed allocation call of the C3 witness: the call
was traced and the oracle advanced, but capacities and generations kept
their initial values. -/
def sGrowFail : St :=
  ⟨1, [DevCall.createVertexBuffer 11000], initDev, false, false, 5000, 10000, 0, 0⟩

/-- Witness for C3 at concrete inputs: a frame that fits the fresh
capacities leaves the sizing step as the identity, and a failed vertex
allocation leaves capacities and generations unchanged. -/
theorem c3_buffer_growth_witness :
    growBuffers allOk dd1 initSt = (none, initSt) ∧ capsEq sGrowFail initSt :=
  ⟨(c3_buffer_growth allOk dd1 [] initSt).1 (by decide) (by decide),
   (c3_buffer_growth (failAt 0 5) ddGrow [] initSt).2.2.1 5 sGrowFail (by decide)⟩

end ImguiDx9
